import Mathlib

/-
Shallow embedding of the PFMO backend analytics core
(src/app/services/ai_service.py and src/app/routers/dashboard.py).

Python strings are embedded as `List Char` (ASCII-faithful: the repository
only manipulates ASCII keys and markers), Python ints as `Int`, Python
floats as `Rat` (real-valued arithmetic; IEEE rounding is not modelled,
which is irrelevant to the range/ordering properties proved here), and
Python JSON-ish heterogeneous values as the inductive `Val`.  Fallible
Python code (uncaught ValueError / IndexError / AttributeError / TypeError)
is embedded with `Except PyErr`; code whose coercions are all wrapped in
try/except (the dashboard aggregation) is embedded as a total function.
-/

/-- Abbreviation turning a Lean string literal into the `List Char` used to
model Python strings. -/
def L (s : String) : List Char := s.toList

/-- ASCII whitespace recognised by Python str.split and str.strip. -/
def isWsC (c : Char) : Bool :=
  c == ' ' || c == '\t' || c == '\n' || c == '\r' || c == '\x0b' || c == '\x0c'

/-- Python str.lower, modelled for ASCII via Char.toLower. -/
def lowerS (s : List Char) : List Char := s.map Char.toLower

/-- Python str.strip(): drop leading and trailing whitespace. -/
def pyStrip (s : List Char) : List Char :=
  (((s.dropWhile isWsC).reverse).dropWhile isWsC).reverse

/-- Helper for `splitWs`: accumulates the current (reversed) word. -/
def splitWsAux : List Char → List Char → List (List Char)
  | [], acc => if acc.isEmpty then [] else [acc.reverse]
  | c :: rest, acc =>
    if isWsC c then
      if acc.isEmpty then splitWsAux rest []
      else acc.reverse :: splitWsAux rest []
    else splitWsAux rest (c :: acc)

/-- Python str.split() with no argument: split on runs of whitespace,
dropping empty pieces. -/
def splitWs (s : List Char) : List (List Char) := splitWsAux s []

/-- Python list-prefix test used to implement substring containment. -/
def startsWithL : List Char → List Char → Bool
  | [], _ => true
  | _ :: _, [] => false
  | a :: as, b :: bs => a == b && startsWithL as bs

/-- Python substring containment `needle in haystack`. -/
def containsL (needle : List Char) : List Char → Bool
  | [] => startsWithL needle []
  | c :: rest => startsWithL needle (c :: rest) || containsL needle rest

/-- Numeric value of a run of decimal digits. -/
def digitsToNat (ds : List Char) : Nat :=
  ds.foldl (fun a c => a * 10 + (c.toNat - 48)) 0

/-- Parse a nonempty all-digit run, else fail. -/
def digitsVal (ds : List Char) : Option Nat :=
  if ds.isEmpty then Option.none
  else if ds.all Char.isDigit then some (digitsToNat ds) else Option.none

/-- Python int(string): optional surrounding whitespace, optional sign, a
nonempty run of decimal digits.  (Digit-grouping underscores, accepted by
CPython, are not modelled; no input in this repository uses them.) -/
def pyIntOfStr (s : List Char) : Option Int :=
  match pyStrip s with
  | [] => Option.none
  | c :: rest =>
    if c == '-' then (digitsVal rest).map (fun n => -(n : Int))
    else if c == '+' then (digitsVal rest).map (fun n => (n : Int))
    else (digitsVal (c :: rest)).map (fun n => (n : Int))

/-- Decidable front end of Python float(string): returns
(negative sign, integer-and-fraction digit value, number of fraction
digits, decimal exponent), or fails.  Grammar: optional surrounding
whitespace, optional sign, digits with an optional fractional part (at
least one digit overall), optional decimal exponent.  (inf/nan literals
and digit-grouping underscores are not modelled; no input in this
repository uses them.) -/
def floatParts (s : List Char) : Option (Bool × Nat × Nat × Int) :=
  let t := pyStrip s
  let sgnBody : Bool × List Char :=
    match t with
    | '-' :: r => (true, r)
    | '+' :: r => (false, r)
    | r => (false, r)
  let ipSplit := sgnBody.2.span Char.isDigit
  let fpSplit : List Char × List Char :=
    match ipSplit.2 with
    | '.' :: r => r.span Char.isDigit
    | r => ([], r)
  if ipSplit.1.isEmpty && fpSplit.1.isEmpty then Option.none
  else
    let mant : Nat := digitsToNat ipSplit.1 * 10 ^ fpSplit.1.length + digitsToNat fpSplit.1
    match fpSplit.2 with
    | [] => some (sgnBody.1, mant, fpSplit.1.length, 0)
    | e :: r3 =>
      if e == 'e' || e == 'E' then
        let esgnBody : Bool × List Char :=
          match r3 with
          | '-' :: r => (true, r)
          | '+' :: r => (false, r)
          | r => (false, r)
        let edSplit := esgnBody.2.span Char.isDigit
        if edSplit.1.isEmpty || !edSplit.2.isEmpty then Option.none
        else
          some (sgnBody.1, mant, fpSplit.1.length,
            if esgnBody.1 then -(digitsToNat edSplit.1 : Int) else (digitsToNat edSplit.1 : Int))
      else Option.none

/-- Rational value of parsed float parts. -/
def ratOfParts (p : Bool × Nat × Nat × Int) : Rat :=
  (if p.1 then -1 else 1) * (p.2.1 : Rat) / (10 ^ p.2.2.1 : Rat) * (10 : Rat) ^ p.2.2.2

/-- Python float(string). -/
def pyFloatOfStr (s : List Char) : Option Rat :=
  (floatParts s).map ratOfParts

/-- Helper for Python str.title: uppercase a letter after a non-letter,
lowercase a letter after a letter. -/
def titleChars : Bool → List Char → List Char
  | _, [] => []
  | prevAlpha, c :: rest =>
    let c2 := if c.isAlpha then (if prevAlpha then c.toLower else c.toUpper) else c
    c2 :: titleChars c.isAlpha rest

/-- The key transform key.replace(Char.ofNat 95, space).title() used by the
dashboard aggregation to produce display names. -/
def pyTitle (s : List Char) : List Char :=
  titleChars false (s.map (fun c => if c == '_' then ' ' else c))

/-- Heterogeneous Python/JSON value as stored in the submission blocks. -/
inductive Val where
  | none : Val
  | bool : Bool → Val
  | int : Int → Val
  | num : Rat → Val
  | str : List Char → Val
  | dict : List (List Char × Val) → Val
  | list : List Val → Val

/-- A Python dict from string keys to heterogeneous values. -/
abbrev PyDict := List (List Char × Val)

/-- Python dict.get with an explicit default. -/
def dgetD : PyDict → List Char → Val → Val
  | [], _, dflt => dflt
  | (k2, v) :: rest, k, dflt => if k2 == k then v else dgetD rest k dflt

/-- Python dict.get with the implicit default None. -/
def dgetV (d : PyDict) (k : List Char) : Val := dgetD d k .none

/-- Python truthiness of a value. -/
def truthy : Val → Bool
  | .none => false
  | .bool b => b
  | .int n => n != 0
  | .num q => q != 0
  | .str s => !s.isEmpty
  | .dict d => !d.isEmpty
  | .list l => !l.isEmpty

/-- Python equality test between a value and a string literal: only a str
compares equal to a str. -/
def eqStr (v : Val) (s : List Char) : Bool :=
  match v with
  | .str t => t == s
  | _ => false

/-- Numeric view of a value for Python order comparisons: int, bool and
float are comparable with a float literal, anything else raises TypeError. -/
def asNum : Val → Option Rat
  | .int n => some (n : Rat)
  | .bool b => some (if b then 1 else 0)
  | .num q => some q
  | _ => Option.none

/-- String view of a value (Python isinstance(v, str)). -/
def asStr : Val → Option (List Char)
  | .str s => some s
  | _ => Option.none

/-- Uncaught Python exception kinds appearing in the modelled code. -/
inductive PyErr where
  | valueError : PyErr
  | indexError : PyErr
  | attrError : PyErr
  | typeError : PyErr
deriving DecidableEq

instance {ε α : Type} [DecidableEq ε] [DecidableEq α] : DecidableEq (Except ε α)
  | .error e, .error f =>
    if h : e = f then .isTrue (by rw [h]) else .isFalse (by intro hh; cases hh; exact h rfl)
  | .error _, .ok _ => .isFalse (by intro hh; cases hh)
  | .ok _, .error _ => .isFalse (by intro hh; cases hh)
  | .ok a, .ok b =>
    if h : a = b then .isTrue (by rw [h]) else .isFalse (by intro hh; cases hh; exact h rfl)

/-- Result shape of AIService analyze_issues_and_comments and
AIService._basic_text_analysis. -/
structure TextAnalysis where
  sentiment : List Char
  topics : List (List Char)
  priority : List Char
  insights : List (List Char)
  summary : List Char
deriving DecidableEq

/-- The negative sentiment keyword list of _basic_text_analysis. -/
def negativeKeywords : List (List Char) :=
  [L "problem", L "issue", L "broken", L "missing", L "urgent",
   L "critical", L "poor", L "bad", L "lack", L "no"]

/-- The positive sentiment keyword list of _basic_text_analysis. -/
def positiveKeywords : List (List Char) :=
  [L "good", L "excellent", L "working", L "available", L "complete", L "satisfied"]

/-- Number of keywords of the list occurring as a substring of the
lower-cased text (each keyword counted once, as in the Python generator
sum over the keyword list). -/
def keywordCount (kws : List (List Char)) (textLower : List Char) : Nat :=
  (kws.filter (fun w => containsL w textLower)).length

/-- The fixed topic keyword table of _basic_text_analysis, in source order. -/
def topicKeywordTable : List (List Char × List (List Char)) :=
  [(L "infrastructure", [L "power", L "water", L "building", L "facility", L "structure"]),
   (L "staffing", [L "staff", L "worker", L "personnel", L "doctor", L "nurse"]),
   (L "funding", [L "money", L "budget", L "funding", L "financial", L "cost"]),
   (L "equipment", [L "equipment", L "machine", L "device", L "tool"]),
   (L "supplies", [L "supply", L "commodity", L "medicine", L "drug", L "stock"]),
   (L "services", [L "service", L "patient", L "treatment", L "care"])]

/-- Decimal digits of a natural number (Python str of a nonnegative int). -/
def natRepr (n : Nat) : List Char := Nat.toDigits 10 n

/-- AIService._basic_text_analysis. -/
def basicTextAnalysis (text : List Char) : TextAnalysis :=
  let textLower := lowerS text
  let negativeCount := keywordCount negativeKeywords textLower
  let positiveCount := keywordCount positiveKeywords textLower
  let sentiment :=
    if positiveCount < negativeCount then L "negative"
    else if negativeCount < positiveCount then L "positive"
    else L "neutral"
  let priority :=
    if positiveCount < negativeCount then
      (if 3 < negativeCount then L "high" else L "medium")
    else if negativeCount < positiveCount then L "low"
    else L "medium"
  let topics :=
    (topicKeywordTable.filter (fun tk => tk.2.any (fun w => containsL w textLower))).map Prod.fst
  { sentiment := sentiment
    topics := if topics.isEmpty then [L "general"] else topics
    priority := priority
    insights := [L "Detected " ++ sentiment ++ L " sentiment with "
                  ++ natRepr topics.length ++ L " key topics"]
    summary := if 200 < text.length then text.take 200 ++ L "..." else text }

/-- AIService.analyze_issues_and_comments.  The OpenAI branch of the source
(_analyze_with_openai) consists of commented-out code followed by a
delegation to _basic_text_analysis, so the result does not depend on the
enabled flag and the flag is not modelled. -/
def analyzeIssuesAndComments (issues comments : List Char) : TextAnalysis :=
  if issues.isEmpty && comments.isEmpty then
    { sentiment := L "neutral", topics := [], priority := L "low",
      insights := [], summary := L "No issues or comments provided" }
  else
    basicTextAnalysis (pyStrip (issues ++ [' '] ++ comments))

/-- Result shape of AIService.predict_facility_needs. -/
structure Predictions where
  priority_level : List Char
  predicted_needs : List (List Char)
  risk_factors : List (List Char)
  recommendations : List (List Char)
deriving DecidableEq

/-- Key filter of the staffing sum in predict_facility_needs (note: unlike
the dashboard aggregation, no worker marker). -/
def staffMarkerPredict (k : List Char) : Bool :=
  containsL (L "staff") (lowerS k) || containsL (L "personnel") (lowerS k)

/-- One term of the staffing sum in predict_facility_needs:
int(str(v).split()[0]) if isinstance(v, (str, int)) else 0, with NO
try/except around it in the source.  A Python bool is an instance of int,
and str of a bool is never int-parseable, hence the bool branch raises. -/
def predictStaffTerm : Val → Except PyErr Int
  | .str s =>
    match splitWs s with
    | [] => .error .indexError
    | t :: _ =>
      match pyIntOfStr t with
      | some n => .ok n
      | Option.none => .error .valueError
  | .int n => .ok n
  | .bool _ => .error .valueError
  | _ => .ok 0

/-- The generator sum over the human-resources items in
predict_facility_needs, evaluated left to right; the first exception
propagates. -/
def staffSumItems : PyDict → Except PyErr Int
  | [] => .ok 0
  | (k, v) :: rest =>
    if staffMarkerPredict k then
      match predictStaffTerm v with
      | .error e => .error e
      | .ok t =>
        match staffSumItems rest with
        | .error e => .error e
        | .ok r => .ok (t + r)
    else staffSumItems rest

/-- Pure assembly of the predictions dict from the five rule triggers, in
source order. -/
def mkPredictions (condFire lowStaff noFunding noPower noWater : Bool) : Predictions :=
  { priority_level := if condFire then L "high" else L "medium"
    predicted_needs :=
      (if condFire then [L "Infrastructure improvement"] else []) ++
      (if lowStaff then [L "Additional healthcare workers"] else []) ++
      (if noFunding then [L "Financial support"] else []) ++
      (if noPower then [L "Power supply"] else []) ++
      (if noWater then [L "Water supply"] else [])
    risk_factors :=
      (if condFire then [L "Poor facility condition"] else []) ++
      (if lowStaff then [L "Insufficient staffing"] else []) ++
      (if noFunding then [L "Lack of funding"] else [])
    recommendations :=
      (if condFire then [L "Prioritize facility rehabilitation"] else []) ++
      (if lowStaff then [L "Recruit and train more staff"] else []) ++
      (if noFunding then [L "Apply for BHCPF or IMPACT funding"] else []) ++
      (if noPower then [L "Install or repair power infrastructure"] else []) ++
      (if noWater then [L "Ensure reliable water access"] else []) }

/-- AIService.predict_facility_needs.  Calling lower() on a non-string
facility_condition raises AttributeError; the staffing sum can raise
ValueError or IndexError (see predictStaffTerm). -/
def predictFacilityNeeds (sub : PyDict) : Except PyErr Predictions :=
  match asStr (dgetD sub (L "facility_condition") (.str [])) with
  | Option.none => .error .attrError
  | some cs =>
    let cond := lowerS cs
    let condFire := cond == L "poor" || cond == L "critical"
    let staffRes : Except PyErr (Option Int) :=
      match dgetD sub (L "human_resources_data") (.dict []) with
      | .dict items =>
        match staffSumItems items with
        | .error e => .error e
        | .ok t => .ok (some t)
      | _ => .ok Option.none
    match staffRes with
    | .error e => .error e
    | .ok staffOpt =>
      let lowStaff := match staffOpt with | some t => decide (t < 5) | Option.none => false
      let noFunding :=
        match dgetD sub (L "funding_data") (.dict []) with
        | .dict d =>
          !(eqStr (dgetV d (L "bhcpf_status")) (L "Received") || truthy (dgetV d (L "has_bhcpf")))
        | _ => false
      let infra := dgetD sub (L "infrastructure_data") (.dict [])
      let noPower :=
        match infra with
        | .dict d => !(eqStr (dgetV d (L "has_power")) (L "Yes") || truthy (dgetV d (L "power_available")))
        | _ => false
      let noWater :=
        match infra with
        | .dict d => !(eqStr (dgetV d (L "has_water")) (L "Yes") || truthy (dgetV d (L "water_available")))
        | _ => false
      .ok (mkPredictions condFire lowStaff noFunding noPower noWater)

/-- One anomaly record of AIService.detect_data_anomalies. -/
structure Finding where
  ftype : List Char
  field : List Char
  severity : List Char
  message : List Char
deriving DecidableEq

/-- The critical fields checked first by detect_data_anomalies. -/
def criticalFields : List (List Char) :=
  [L "facility_name", L "state", L "lga", L "facility_condition"]

/-- The missing_data findings of detect_data_anomalies, in field order. -/
def missingFindings (sub : PyDict) : List Finding :=
  (criticalFields.filter (fun f => !truthy (dgetV sub f))).map
    (fun f => { ftype := L "missing_data", field := f, severity := L "high",
                message := L "Missing critical field: " ++ f })

/-- Python chained comparison lo <= v <= hi; TypeError when v is not
numeric (int, bool and float compare with a float literal). -/
def chainLE (lo : Rat) (v : Val) (hi : Rat) : Except PyErr Bool :=
  match asNum v with
  | some x => .ok (decide (lo ≤ x) && decide (x ≤ hi))
  | Option.none => .error .typeError

/-- The single invalid_location finding (the source interpolates the
coordinates into the message; the interpolation is not modelled). -/
def invalidLocationFinding : Finding :=
  { ftype := L "invalid_location", field := L "coordinates", severity := L "medium",
    message := L "Coordinates appear to be outside Nigeria" }

/-- The GPS bounding-box check of detect_data_anomalies, including the
Python truthiness guard on both coordinates and the short-circuit order of
the two chained comparisons. -/
def locationFindings (sub : PyDict) : Except PyErr (List Finding) :=
  let lat := dgetV sub (L "latitude")
  let lon := dgetV sub (L "longitude")
  if truthy lat && truthy lon then
    match chainLE 4 lat 14 with
    | .error e => .error e
    | .ok c1 =>
      if !c1 then .ok [invalidLocationFinding]
      else
        match chainLE 2 lon 15 with
        | .error e => .error e
        | .ok c2 => if !c2 then .ok [invalidLocationFinding] else .ok []
  else .ok []

/-- The logical-inconsistency check of detect_data_anomalies. -/
def inconsistencyFindings (sub : PyDict) : List Finding :=
  match dgetD sub (L "human_resources_data") (.dict []) with
  | .dict items =>
    if eqStr (dgetV sub (L "has_health_workers")) (L "No")
        && items.any (fun kv => truthy kv.2) then
      [{ ftype := L "inconsistency", field := L "health_workers", severity := L "medium",
         message := L "Form indicates no health workers but HR data exists" }]
    else []
  | _ => []

/-- AIService.detect_data_anomalies: missing-data findings, then the
location finding, then the inconsistency finding. -/
def detectAnomalies (sub : PyDict) : Except PyErr (List Finding) :=
  match locationFindings sub with
  | .error e => .error e
  | .ok locs => .ok (missingFindings sub ++ locs ++ inconsistencyFindings sub)

/-- Recogniser for an invalid_location finding of medium severity. -/
def isInvalidLocationMedium (f : Finding) : Bool :=
  f.ftype == L "invalid_location" && f.severity == L "medium"

/-- Number of invalid_location/medium findings detect_data_anomalies emits
on a record (0 by convention when the call raises). -/
def invalidLocCount (sub : PyDict) : Nat :=
  match detectAnomalies sub with
  | .ok l => l.countP (fun f => isInvalidLocationMedium f)
  | .error _ => 0

/-- FormSubmission row restricted to the columns read by
get_detailed_analytics and to_dict keys consulted by the AI functions
(the remaining to_dict keys are never read by any embedded function).
String columns are optional strings, GPS columns optional floats, JSON
columns arbitrary values (None when the column is NULL). -/
structure Submission where
  facility_name : Option (List Char) := Option.none
  state : Option (List Char) := Option.none
  lga : Option (List Char) := Option.none
  geopolitical_zone : Option (List Char) := Option.none
  facility_condition : Option (List Char) := Option.none
  ownership_type : Option (List Char) := Option.none
  assessment_type : Option (List Char) := Option.none
  has_health_workers : Option (List Char) := Option.none
  latitude : Option Rat := Option.none
  longitude : Option Rat := Option.none
  funding_data : Val := .none
  impact_funding_data : Val := .none
  infrastructure_data : Val := .none
  human_resources_data : Val := .none
  services_data : Val := .none
  satisfaction_survey_data : Val := .none

/-- Value of an optional string column in the to_dict dictionary. -/
def optStrVal : Option (List Char) → Val
  | Option.none => .none
  | some s => .str s

/-- Value of an optional float column in the to_dict dictionary. -/
def optNumVal : Option Rat → Val
  | Option.none => .none
  | some q => .num q

/-- FormSubmission.to_dict restricted to the keys consulted by the AI
functions (every key is present; a NULL column maps to None). -/
def toDict (s : Submission) : PyDict :=
  [(L "facility_name", optStrVal s.facility_name),
   (L "state", optStrVal s.state),
   (L "lga", optStrVal s.lga),
   (L "geopolitical_zone", optStrVal s.geopolitical_zone),
   (L "facility_condition", optStrVal s.facility_condition),
   (L "ownership_type", optStrVal s.ownership_type),
   (L "assessment_type", optStrVal s.assessment_type),
   (L "has_health_workers", optStrVal s.has_health_workers),
   (L "latitude", optNumVal s.latitude),
   (L "longitude", optNumVal s.longitude),
   (L "funding_data", s.funding_data),
   (L "impact_funding_data", s.impact_funding_data),
   (L "infrastructure_data", s.infrastructure_data),
   (L "human_resources_data", s.human_resources_data),
   (L "services_data", s.services_data),
   (L "satisfaction_survey_data", s.satisfaction_survey_data)]

/-- Truthiness of an optional string column (None and the empty string are
falsy in Python). -/
def strOptTruthy : Option (List Char) → Bool
  | Option.none => false
  | some s => !s.isEmpty

/-- Python d[k] = d.get(k, 0) + a on an insertion-ordered dict: update the
first matching entry in place, or append a new entry. -/
def bumpAdd {A : Type} [Add A] : List (List Char × A) → List Char → A → List (List Char × A)
  | [], k, a => [(k, a)]
  | (k2, v) :: rest, k, a =>
    if k2 == k then (k2, v + a) :: rest else (k2, v) :: bumpAdd rest k a

/-- satisfaction_by_category: create-empty-then-append on an
insertion-ordered dict of score lists. -/
def bumpAppend : List (List Char × List Rat) → List Char → Rat → List (List Char × List Rat)
  | [], k, x => [(k, [x])]
  | (k2, v) :: rest, k, x =>
    if k2 == k then (k2, v ++ [x]) :: rest else (k2, v) :: bumpAppend rest k x

/-- Integer value stored under a key of an insertion-ordered counter (0 if
absent). -/
def lookupZ : List (List Char × Int) → List Char → Int
  | [], _ => 0
  | (k2, v) :: rest, k => if k2 == k then v else lookupZ rest k

/-- Python str.replace of commas by the empty string. -/
def stripCommas (s : List Char) : List Char := s.filter (fun c => c != ',')

/-- The funding amount coercion float(str(v).replace(comma, empty)) of the
aggregation, by value shape: str of a float or an int round-trips through
float() to the same value and contains no comma; str of None, a bool, a
dict or a list is never float-parseable (so those raise and are caught). -/
def amountToFloat : Val → Option Rat
  | .str s => pyFloatOfStr (stripCommas s)
  | .int n => some (n : Rat)
  | .num q => some q
  | _ => Option.none

/-- The staffing/patients coercion of the aggregation,
int(str(value).split()[0]) if isinstance(value, str) else int(value),
whose exceptions are caught: int of a bool is 0 or 1, int of a float
truncates toward zero, int of None/dict/list raises (caught, giving none). -/
def dashIntParse : Val → Option Int
  | .str s => ((splitWs s).head?).bind pyIntOfStr
  | .int n => some n
  | .bool b => some (if b then 1 else 0)
  | .num q => some (if 0 ≤ q then ⌊q⌋ else ⌈q⌉)
  | _ => Option.none

/-- The satisfaction coercion float(value) if isinstance(value, (int,
float)) else float(str(value).split()[0]), exceptions caught (a bool is an
instance of int; str of None/dict/list is never float-parseable). -/
def satParse : Val → Option Rat
  | .int n => some (n : Rat)
  | .bool b => some (if b then 1 else 0)
  | .num q => some q
  | .str s => ((splitWs s).head?).bind pyFloatOfStr
  | _ => Option.none

/-- Staff marker key filter of the aggregation (staff, personnel, worker). -/
def staffMarkerDash (k : List Char) : Bool :=
  containsL (L "staff") (lowerS k) || containsL (L "personnel") (lowerS k)
    || containsL (L "worker") (lowerS k)

/-- Patient marker key filter (patient, attendance, utilization). -/
def patientMarker (k : List Char) : Bool :=
  containsL (L "patient") (lowerS k) || containsL (L "attendance") (lowerS k)
    || containsL (L "utilization") (lowerS k)

/-- Satisfaction marker key filter (satisfaction, rating, score). -/
def satMarker (k : List Char) : Bool :=
  containsL (L "satisfaction") (lowerS k) || containsL (L "rating") (lowerS k)
    || containsL (L "score") (lowerS k)

/-- Offered-service test: isinstance(value, str) and value.lower() in
[yes, true, available]. -/
def isOffered : Val → Bool
  | .str s => lowerS s == L "yes" || lowerS s == L "true" || lowerS s == L "available"
  | _ => false

/-- The items of a nested block guarded by
`if block and isinstance(block, dict)`: an absent, non-dict or falsy
(empty) dict yields no items. -/
def dictItemsT : Val → PyDict
  | .dict (x :: xs) => x :: xs
  | _ => []

/-- The per-record BHCPF funded test of the aggregation (key spellings
bhcpf_received == Yes, or truthy has_bhcpf). -/
def bhcpfCounted (fd : Val) : Bool :=
  match dictItemsT fd with
  | [] => false
  | d => eqStr (dgetV d (L "bhcpf_received")) (L "Yes") || truthy (dgetV d (L "has_bhcpf"))

/-- The per-record IMPACT funded test (received == Yes, or truthy
has_impact_funding). -/
def impactCounted (v : Val) : Bool :=
  match dictItemsT v with
  | [] => false
  | d => eqStr (dgetV d (L "received")) (L "Yes") || truthy (dgetV d (L "has_impact_funding"))

/-- One dual-spelling infrastructure capability test (literal Yes under the
first key, or truthy value under the alias key). -/
def infraFlag (v : Val) (yesKey availKey : List Char) : Bool :=
  match dictItemsT v with
  | [] => false
  | d => eqStr (dgetV d yesKey) (L "Yes") || truthy (dgetV d availKey)

/-- The funding amount contribution of one record: 0 when the funding
block is missing/falsy/not a dict, when the amount key is falsy, or when
the coercion fails. -/
def amountContrib (fd : Val) : Rat :=
  match dictItemsT fd with
  | [] => 0
  | d =>
    if truthy (dgetV d (L "amount")) then (amountToFloat (dgetV d (L "amount"))).getD 0 else 0

/-- The human-resources inner loop of the aggregation: accumulates the
per-record staff count and updates staff_by_type for each marker key whose
value parses. -/
def hrScan : PyDict → Int × List (List Char × Int) → Int × List (List Char × Int)
  | [], acc => acc
  | (k, v) :: rest, acc =>
    if staffMarkerDash k then
      match dashIntParse v with
      | some c => hrScan rest (acc.1 + c, bumpAdd acc.2 (pyTitle k) c)
      | Option.none => hrScan rest acc
    else hrScan rest acc

/-- The patient-count inner loop of the aggregation. -/
def patientScan : PyDict → Int → Int
  | [], acc => acc
  | (k, v) :: rest, acc =>
    if patientMarker k then
      match dashIntParse v with
      | some c => patientScan rest (acc + c)
      | Option.none => patientScan rest acc
    else patientScan rest acc

/-- The services-offered inner loop of the aggregation. -/
def servicesScan : PyDict → List (List Char × Int) → List (List Char × Int)
  | [], acc => acc
  | (k, v) :: rest, acc =>
    if isOffered v then servicesScan rest (bumpAdd acc (pyTitle k) 1)
    else servicesScan rest acc

/-- The satisfaction inner loop: appends each parsed score to the global
list and to its per-category list. -/
def satScan : PyDict → List Rat × List (List Char × List Rat) → List Rat × List (List Char × List Rat)
  | [], acc => acc
  | (k, v) :: rest, acc =>
    if satMarker k then
      match satParse v with
      | some sc => satScan rest (acc.1 ++ [sc], bumpAppend acc.2 (pyTitle k) sc)
      | Option.none => satScan rest acc
    else satScan rest acc

/-- Mutable accumulator state of the get_detailed_analytics scan. -/
structure AggState where
  condition_counts : List (List Char × Int) := []
  ownership_counts : List (List Char × Int) := []
  assessment_type_counts : List (List Char × Int) := []
  has_health_workers_counts : List (List Char × Int) := []
  zone_counts : List (List Char × Int) := []
  bhcpf_facilities : Int := 0
  impact_facilities : Int := 0
  total_funding_amount : Rat := 0
  funding_by_state : List (List Char × Rat) := []
  has_power : Int := 0
  has_water : Int := 0
  has_internet : Int := 0
  has_pharmacy : Int := 0
  revitalization_count : Int := 0
  total_staff : Int := 0
  staff_by_type : List (List Char × Int) := []
  facilities_with_staff : Int := 0
  total_patients : Int := 0
  services_offered : List (List Char × Int) := []
  satisfaction_scores : List Rat := []
  satisfaction_by_category : List (List Char × List Rat) := []

/-- Initial (all-zero, all-empty) accumulator state. -/
def initState : AggState := {}

/-- The positive part of an integer, modelling the
`if facility_staff_count > 0` gate. -/
def posGate (x : Int) : Int := if 0 < x then x else 0

/-- The per-record update of the per-state funding accumulator: performed
only when the funding block is a truthy dict, its amount value is truthy
and parseable, and the state column is truthy. -/
def fundingByStateUpd (fbs : List (List Char × Rat)) (s : Submission) :
    List (List Char × Rat) :=
  match dictItemsT s.funding_data with
  | [] => fbs
  | d =>
    if truthy (dgetV d (L "amount")) then
      match amountToFloat (dgetV d (L "amount")) with
      | some a => if strOptTruthy s.state then bumpAdd fbs (s.state.getD []) a else fbs
      | Option.none => fbs
    else fbs

/-- One iteration of the get_detailed_analytics loop body.  The blocks of
the source touch pairwise disjoint accumulators, so the iteration is a
single record update; the guarded try/except amount block is factored
through amountContrib (running total) and fundingByStateUpd (per-state
map), which retrace its branches. -/
def processSub (st : AggState) (s : Submission) : AggState :=
  let hrRes := hrScan (dictItemsT s.human_resources_data) (0, st.staff_by_type)
  { condition_counts :=
      if strOptTruthy s.facility_condition then
        bumpAdd st.condition_counts (s.facility_condition.getD []) 1
      else st.condition_counts,
    ownership_counts :=
      if strOptTruthy s.ownership_type then
        bumpAdd st.ownership_counts (s.ownership_type.getD []) 1
      else st.ownership_counts,
    assessment_type_counts :=
      if strOptTruthy s.assessment_type then
        bumpAdd st.assessment_type_counts (s.assessment_type.getD []) 1
      else st.assessment_type_counts,
    has_health_workers_counts :=
      if strOptTruthy s.has_health_workers then
        bumpAdd st.has_health_workers_counts (s.has_health_workers.getD []) 1
      else st.has_health_workers_counts,
    zone_counts :=
      if strOptTruthy s.geopolitical_zone then
        bumpAdd st.zone_counts (s.geopolitical_zone.getD []) 1
      else st.zone_counts,
    bhcpf_facilities := st.bhcpf_facilities + (if bhcpfCounted s.funding_data then 1 else 0),
    impact_facilities :=
      st.impact_facilities + (if impactCounted s.impact_funding_data then 1 else 0),
    total_funding_amount := st.total_funding_amount + amountContrib s.funding_data,
    funding_by_state := fundingByStateUpd st.funding_by_state s,
    has_power := st.has_power +
      (if infraFlag s.infrastructure_data (L "has_power") (L "power_available") then 1 else 0),
    has_water := st.has_water +
      (if infraFlag s.infrastructure_data (L "has_water") (L "water_available") then 1 else 0),
    has_internet := st.has_internet +
      (if infraFlag s.infrastructure_data (L "has_internet") (L "internet_available") then 1
       else 0),
    has_pharmacy := st.has_pharmacy +
      (if infraFlag s.infrastructure_data (L "has_pharmacy") (L "pharmacy_available") then 1
       else 0),
    revitalization_count := st.revitalization_count +
      (if infraFlag s.infrastructure_data (L "revitalization") (L "revitalized") then 1 else 0),
    total_staff := st.total_staff + posGate hrRes.1,
    staff_by_type := hrRes.2,
    facilities_with_staff := st.facilities_with_staff + (if 0 < hrRes.1 then 1 else 0),
    total_patients := patientScan (dictItemsT s.services_data) st.total_patients,
    services_offered := servicesScan (dictItemsT s.services_data) st.services_offered,
    satisfaction_scores :=
      (satScan (dictItemsT s.satisfaction_survey_data)
        (st.satisfaction_scores, st.satisfaction_by_category)).1,
    satisfaction_by_category :=
      (satScan (dictItemsT s.satisfaction_survey_data)
        (st.satisfaction_scores, st.satisfaction_by_category)).2 }

/-- Round-half-to-even of a rational to an integer (Python round). -/
def rhe (x : Rat) : Int :=
  if x - (⌊x⌋ : Rat) < 1/2 then ⌊x⌋
  else if 1/2 < x - (⌊x⌋ : Rat) then ⌊x⌋ + 1
  else if ⌊x⌋ % 2 = 0 then ⌊x⌋ else ⌊x⌋ + 1

/-- Python round(x, 2): banker-rounded to 2 decimal places. -/
def pyRound2 (x : Rat) : Rat := (rhe (x * 100) : Rat) / 100

/-- round((count / total * 100) if total > 0 else 0, 2), the percentage
shape used throughout the report. -/
def pctOf (count : Int) (total : Int) : Rat :=
  pyRound2 (if 0 < total then (count : Rat) / (total : Rat) * 100 else 0)

/-- Stable descending ordered insert: the new element goes in front of the
first list element whose key does not exceed its key, hence after all
earlier elements with an equal key. -/
def insertDescBy {A : Type} (f : A → Rat) (a : A) : List A → List A
  | [] => [a]
  | b :: bs => if f b ≤ f a then a :: b :: bs else b :: insertDescBy f a bs

/-- Python sorted(items, key, reverse=True): the stable descending sort,
realised as an insertion sort that keeps equal keys in encounter order. -/
def sortDescBy {A : Type} (f : A → Rat) : List A → List A
  | [] => []
  | a :: as => insertDescBy f a (sortDescBy f as)

/-- facility_analysis section: distribution entries are
(value, count, percentage) triples, or (value, count) pairs for the two
unpercentaged distributions. -/
structure FacilityAnalysis where
  condition_distribution : List (List Char × Int × Rat)
  ownership_distribution : List (List Char × Int × Rat)
  assessment_type_distribution : List (List Char × Int)
  health_workers_distribution : List (List Char × Int × Rat)
  geopolitical_zone_distribution : List (List Char × Int)
deriving DecidableEq

/-- funding_analysis section. -/
structure FundingAnalysis where
  bhcpf_facilities : Int
  bhcpf_percentage : Rat
  impact_facilities : Int
  impact_percentage : Rat
  total_funding_amount : Rat
  average_funding_per_facility : Rat
  funding_by_state : List (List Char × Rat)
deriving DecidableEq

/-- infrastructure_analysis section. -/
structure InfrastructureAnalysis where
  facilities_with_power : Int
  power_percentage : Rat
  facilities_with_water : Int
  water_percentage : Rat
  facilities_with_internet : Int
  internet_percentage : Rat
  facilities_with_pharmacy : Int
  pharmacy_percentage : Rat
  revitalized_facilities : Int
  revitalization_percentage : Rat
deriving DecidableEq

/-- human_resources_analysis section. -/
structure HumanResourcesAnalysis where
  total_staff : Int
  facilities_with_staff : Int
  average_staff_per_facility : Rat
  staff_by_type : List (List Char × Int)
deriving DecidableEq

/-- services_utilization section: top services entries are
(service, facility count, percentage). -/
structure ServicesUtilization where
  total_patients : Int
  average_patients_per_facility : Rat
  top_services_offered : List (List Char × Int × Rat)
deriving DecidableEq

/-- patient_satisfaction section: category entries are
(category, average, count). -/
structure PatientSatisfaction where
  average_score : Rat
  total_responses : Int
  scores_by_category : List (List Char × Rat × Int)
deriving DecidableEq

/-- summary section. -/
structure ReportSummary where
  total_facilities : Int
  facilities_with_complete_data : Int
  data_completeness_percentage : Rat
deriving DecidableEq

/-- The full report returned by get_detailed_analytics. -/
structure DetailedReport where
  facility_analysis : FacilityAnalysis
  funding_analysis : FundingAnalysis
  infrastructure_analysis : InfrastructureAnalysis
  human_resources_analysis : HumanResourcesAnalysis
  services_utilization : ServicesUtilization
  patient_satisfaction : PatientSatisfaction
  summary : ReportSummary
deriving DecidableEq

/-- The complete-record test of the summary section (both condition and
ownership populated). -/
def isComplete (s : Submission) : Bool :=
  strOptTruthy s.facility_condition && strOptTruthy s.ownership_type

/-- get_detailed_analytics: one scan over all records, then the composed
report, translated field by field from the source. -/
def buildReport (subs : List Submission) : DetailedReport :=
  let st := subs.foldl processSub initState
  let total : Int := (subs.length : Int)
  { facility_analysis := {
      condition_distribution := st.condition_counts.map (fun p => (p.1, p.2, pctOf p.2 total)),
      ownership_distribution := st.ownership_counts.map (fun p => (p.1, p.2, pctOf p.2 total)),
      assessment_type_distribution := st.assessment_type_counts,
      health_workers_distribution :=
        st.has_health_workers_counts.map (fun p => (p.1, p.2, pctOf p.2 total)),
      geopolitical_zone_distribution := st.zone_counts },
    funding_analysis := {
      bhcpf_facilities := st.bhcpf_facilities,
      bhcpf_percentage := pctOf st.bhcpf_facilities total,
      impact_facilities := st.impact_facilities,
      impact_percentage := pctOf st.impact_facilities total,
      total_funding_amount := pyRound2 st.total_funding_amount,
      average_funding_per_facility :=
        pyRound2 (if 0 < total then st.total_funding_amount / (total : Rat) else 0),
      funding_by_state :=
        ((sortDescBy (fun p => p.2) st.funding_by_state).take 10).map
          (fun p => (p.1, pyRound2 p.2)) },
    infrastructure_analysis := {
      facilities_with_power := st.has_power,
      power_percentage := pctOf st.has_power total,
      facilities_with_water := st.has_water,
      water_percentage := pctOf st.has_water total,
      facilities_with_internet := st.has_internet,
      internet_percentage := pctOf st.has_internet total,
      facilities_with_pharmacy := st.has_pharmacy,
      pharmacy_percentage := pctOf st.has_pharmacy total,
      revitalized_facilities := st.revitalization_count,
      revitalization_percentage := pctOf st.revitalization_count total },
    human_resources_analysis := {
      total_staff := st.total_staff,
      facilities_with_staff := st.facilities_with_staff,
      average_staff_per_facility :=
        pyRound2 (if 0 < st.facilities_with_staff then
          (st.total_staff : Rat) / (st.facilities_with_staff : Rat) else 0),
      staff_by_type := (sortDescBy (fun p => (p.2 : Rat)) st.staff_by_type).take 10 },
    services_utilization := {
      total_patients := st.total_patients,
      average_patients_per_facility :=
        pyRound2 (if 0 < total then (st.total_patients : Rat) / (total : Rat) else 0),
      top_services_offered :=
        ((sortDescBy (fun p => (p.2 : Rat)) st.services_offered).take 10).map
          (fun p => (p.1, p.2, pctOf p.2 total)) },
    patient_satisfaction := {
      average_score :=
        pyRound2 (if st.satisfaction_scores.isEmpty then 0
          else st.satisfaction_scores.sum / (st.satisfaction_scores.length : Rat)),
      total_responses := (st.satisfaction_scores.length : Int),
      scores_by_category :=
        st.satisfaction_by_category.map (fun p =>
          (p.1,
           pyRound2 (if p.2.isEmpty then 0 else p.2.sum / (p.2.length : Rat)),
           (p.2.length : Int))) },
    summary := {
      total_facilities := total,
      facilities_with_complete_data := ((subs.filter (fun s => isComplete s)).length : Int),
      data_completeness_percentage :=
        pctOf ((subs.filter (fun s => isComplete s)).length : Int) total } }

/-- The staff contribution of one human-resources item to the per-record
staff sum (0 for non-marker keys and failed coercions). -/
def hrItemContrib (kv : List Char × Val) : Int :=
  if staffMarkerDash kv.1 then (dashIntParse kv.2).getD 0 else 0

/-- The per-record staff sum of the aggregation (the final value of
facility_staff_count). -/
def recStaffSum (s : Submission) : Int :=
  ((dictItemsT s.human_resources_data).map hrItemContrib).sum

/-- The contribution of one record to the staff_by_type entry of a given
display key. -/
def recKeyContrib (s : Submission) (k : List Char) : Int :=
  (((dictItemsT s.human_resources_data).filter
      (fun kv => staffMarkerDash kv.1 && pyTitle kv.1 == k)).map
    (fun kv => (dashIntParse kv.2).getD 0)).sum

/-- The rational 7.5 (the longitude used by the specification examples),
given in normalised constructor form so that order comparisons reduce. -/
def q75 : Rat := Rat.mk' 15 2 (by decide) (by norm_num)

/-- The condition trigger of predict_facility_needs: the lower-cased
facility_condition (default empty string) is poor or critical; false when
the stored value is not a string (in which case the call raises before
producing a result). -/
def condIsCritical (sub : PyDict) : Bool :=
  match asStr (dgetD sub (L "facility_condition") (.str [])) with
  | some cs => lowerS cs == L "poor" || lowerS cs == L "critical"
  | Option.none => false

/-- A value that is either absent (None) or numeric: the coordinate shapes
under which detect_data_anomalies cannot raise. -/
def numOrAbsent : Val → Bool
  | .none => true
  | v => (asNum v).isSome

/-- The exact invalid-location trigger implemented by
detect_data_anomalies: both coordinates truthy (present AND nonzero) and
at least one outside the Nigeria bounding box. -/
def outsideNigeria (sub : PyDict) : Bool :=
  truthy (dgetV sub (L "latitude")) && truthy (dgetV sub (L "longitude")) &&
    (match asNum (dgetV sub (L "latitude")), asNum (dgetV sub (L "longitude")) with
     | some la, some lo =>
       !(decide (4 ≤ la) && decide (la ≤ 14)) || !(decide (2 ≤ lo) && decide (lo ≤ 15))
     | _, _ => false)

/-- The combined text analysed by analyze_issues_and_comments. -/
def combinedText (issues comments : List Char) : List Char :=
  pyStrip (issues ++ [' '] ++ comments)

/-- The display names of the offered services of one record, in encounter
order.  Distinct Python dict keys can collide after the
replace-underscore-and-title transform, which is what breaks the 100-percent
bound. -/
def offeredTitles (s : Submission) : List (List Char) :=
  ((dictItemsT s.services_data).filter (fun kv => isOffered kv.2)).map (fun kv => pyTitle kv.1)

/-- Every staff-marker value of the record parses to a nonnegative count
(or fails to parse, contributing 0). -/
def staffValsNonneg (s : Submission) : Bool :=
  (dictItemsT s.human_resources_data).all
    (fun kv => !staffMarkerDash kv.1 || decide (0 ≤ (dashIntParse kv.2).getD 0))

/-- The patient contribution of one services item (0 for non-marker keys
and failed coercions). -/
def patientContrib (kv : List Char × Val) : Int :=
  if patientMarker kv.1 then (dashIntParse kv.2).getD 0 else 0

/-- Every patient-marker value of the record parses to a nonnegative count
(or fails to parse, contributing 0). -/
def patientValsNonneg (s : Submission) : Bool :=
  (dictItemsT s.services_data).all
    (fun kv => !patientMarker kv.1 || decide (0 ≤ (dashIntParse kv.2).getD 0))

/-- Well-behaved record for the amended count/percentage bounds: its
offered-service display names are pairwise distinct (automatic for raw
Python dict keys, but not after the title transform) and its staff and
patient counts are nonnegative. -/
def goodSub (s : Submission) : Prop :=
  (offeredTitles s).Nodup ∧ staffValsNonneg s = true ∧ patientValsNonneg s = true

/-- Every count field of the report is nonnegative and every percentage
field lies in [0, 100] (the two unpercentaged distributions and the staff,
services and satisfaction counters are counts; the three top-10 lists carry
their counts and percentages inside their entries). -/
def reportBoundsOK (rep : DetailedReport) : Prop :=
  (∀ e ∈ rep.facility_analysis.condition_distribution,
    0 ≤ e.2.1 ∧ 0 ≤ e.2.2 ∧ e.2.2 ≤ 100) ∧
  (∀ e ∈ rep.facility_analysis.ownership_distribution,
    0 ≤ e.2.1 ∧ 0 ≤ e.2.2 ∧ e.2.2 ≤ 100) ∧
  (∀ e ∈ rep.facility_analysis.assessment_type_distribution, 0 ≤ e.2) ∧
  (∀ e ∈ rep.facility_analysis.health_workers_distribution,
    0 ≤ e.2.1 ∧ 0 ≤ e.2.2 ∧ e.2.2 ≤ 100) ∧
  (∀ e ∈ rep.facility_analysis.geopolitical_zone_distribution, 0 ≤ e.2) ∧
  (0 ≤ rep.funding_analysis.bhcpf_facilities ∧
    0 ≤ rep.funding_analysis.bhcpf_percentage ∧ rep.funding_analysis.bhcpf_percentage ≤ 100) ∧
  (0 ≤ rep.funding_analysis.impact_facilities ∧
    0 ≤ rep.funding_analysis.impact_percentage ∧ rep.funding_analysis.impact_percentage ≤ 100) ∧
  (0 ≤ rep.infrastructure_analysis.facilities_with_power ∧
    0 ≤ rep.infrastructure_analysis.power_percentage ∧
    rep.infrastructure_analysis.power_percentage ≤ 100) ∧
  (0 ≤ rep.infrastructure_analysis.facilities_with_water ∧
    0 ≤ rep.infrastructure_analysis.water_percentage ∧
    rep.infrastructure_analysis.water_percentage ≤ 100) ∧
  (0 ≤ rep.infrastructure_analysis.facilities_with_internet ∧
    0 ≤ rep.infrastructure_analysis.internet_percentage ∧
    rep.infrastructure_analysis.internet_percentage ≤ 100) ∧
  (0 ≤ rep.infrastructure_analysis.facilities_with_pharmacy ∧
    0 ≤ rep.infrastructure_analysis.pharmacy_percentage ∧
    rep.infrastructure_analysis.pharmacy_percentage ≤ 100) ∧
  (0 ≤ rep.infrastructure_analysis.revitalized_facilities ∧
    0 ≤ rep.infrastructure_analysis.revitalization_percentage ∧
    rep.infrastructure_analysis.revitalization_percentage ≤ 100) ∧
  (0 ≤ rep.human_resources_analysis.total_staff ∧
    0 ≤ rep.human_resources_analysis.facilities_with_staff ∧
    ∀ e ∈ rep.human_resources_analysis.staff_by_type, 0 ≤ e.2) ∧
  (0 ≤ rep.services_utilization.total_patients ∧
    ∀ e ∈ rep.services_utilization.top_services_offered,
      0 ≤ e.2.1 ∧ 0 ≤ e.2.2 ∧ e.2.2 ≤ 100) ∧
  (0 ≤ rep.patient_satisfaction.total_responses ∧
    ∀ e ∈ rep.patient_satisfaction.scores_by_category, 0 ≤ e.2.2) ∧
  (0 ≤ rep.summary.total_facilities ∧ 0 ≤ rep.summary.facilities_with_complete_data ∧
    0 ≤ rep.summary.data_completeness_percentage ∧
    rep.summary.data_completeness_percentage ≤ 100)

/-- Record whose human-resources block holds a staff value that is not
int-parseable (the C1/spec example). -/
def recTwelve : PyDict :=
  [(L "human_resources_data", .dict [(L "nurse_staff", .str (L "twelve nurses"))])]

/-- Record whose human-resources block holds an empty-string staff value
(the other unparseable shape: split() of the empty string is empty). -/
def recEmptyStaff : PyDict :=
  [(L "human_resources_data", .dict [(L "nurse_staff", .str (L ""))])]

/-- Record with latitude 0.0 (present but falsy) and longitude 7.5:
latitude lies outside [4, 14] yet the truthiness guard suppresses the
location check. -/
def recLatZero : PyDict := [(L "latitude", .num 0), (L "longitude", .num q75)]

/-- Record with the in-bounds specification coordinates (9.0, 7.5). -/
def recInside : PyDict := [(L "latitude", .num 9), (L "longitude", .num q75)]

/-- Record with the out-of-bounds specification coordinates (40.0, 7.5). -/
def recOutside : PyDict := [(L "latitude", .num 40), (L "longitude", .num q75)]

/-- Record whose services block has two distinct keys with the same
display name (both offered) and a negative patient count. -/
def subBadServices : Submission :=
  { services_data := .dict
      [(L "a_b", .str (L "yes")), (L "a b", .str (L "yes")),
       (L "patient_count", .str (L "-5"))] }

/-- Well-behaved record used to instantiate the amended bounds theorem. -/
def subGoodServices : Submission :=
  { facility_condition := some (L "Good"),
    ownership_type := some (L "Public"),
    services_data := .dict
      [(L "immunization", .str (L "yes")), (L "patient_count", .str (L "25"))],
    human_resources_data := .dict [(L "nurse_staff_count", .str (L "12 nurses"))] }

/-- Record with state Kano and funding amount the string 12,500. -/
def subAmountGood : Submission :=
  { state := some (L "Kano"), funding_data := .dict [(L "amount", .str (L "12,500"))] }

/-- Record whose funding amount is not float-parseable. -/
def subAmountBad : Submission :=
  { funding_data := .dict [(L "amount", .str (L "not-a-number"))] }

/-- Record whose single staff value parses to the negative count -1. -/
def subNegStaff : Submission :=
  { human_resources_data := .dict [(L "a_staff", .str (L "-1"))] }

/-- Record with a parseable 12-nurse staff value (the C7/spec example). -/
def subNurseStaff : Submission :=
  { human_resources_data := .dict [(L "nurse_staff_count", .str (L "12 nurses"))] }

/-- Record funded per the aggregation alias (bhcpf_received = Yes) but not
per the predictor alias (no bhcpf_status, no has_bhcpf). -/
def subAliasGap : Submission :=
  { facility_condition := some (L "Good"),
    funding_data := .dict [(L "bhcpf_received", .str (L "Yes"))] }

/-- The predictions produced on subAliasGap: medium priority, funding rule
fired, all other rules silent (the staffing block is skipped because
to_dict passes None for the absent human-resources column). -/
def predAliasGap : Predictions := mkPredictions false false true false false

/-- Record with a critical condition and benign blocks, used to instantiate
the priority characterisation. -/
def recCritical : PyDict :=
  [(L "facility_condition", .str (L "Critical")),
   (L "human_resources_data", .dict [(L "staff_total", .int 7)])]

/-- Number of offered items of a services block carrying a given display
name (how often one aggregation pass over the block bumps that key). -/
def yesCount (items : PyDict) (k : List Char) : Int :=
  ((items.filter (fun kv => isOffered kv.2 && (pyTitle kv.1 == k))).length : Int)

/-- Invariant of the aggregation state after n records: every distribution
counter is between 1 and n, every single-counter between 0 and n, the
gated staff total, the per-type staff counts and the patient total are
nonnegative (the latter two relying on the per-record goodSub assumptions),
and every offered-service counter is between 1 and n. -/
structure AggInv (n : Nat) (st : AggState) : Prop where
  cond : ∀ p ∈ st.condition_counts, 1 ≤ p.2 ∧ p.2 ≤ (n : Int)
  owner : ∀ p ∈ st.ownership_counts, 1 ≤ p.2 ∧ p.2 ≤ (n : Int)
  assess : ∀ p ∈ st.assessment_type_counts, 1 ≤ p.2 ∧ p.2 ≤ (n : Int)
  hw : ∀ p ∈ st.has_health_workers_counts, 1 ≤ p.2 ∧ p.2 ≤ (n : Int)
  zone : ∀ p ∈ st.zone_counts, 1 ≤ p.2 ∧ p.2 ≤ (n : Int)
  bhcpf : 0 ≤ st.bhcpf_facilities ∧ st.bhcpf_facilities ≤ (n : Int)
  impact : 0 ≤ st.impact_facilities ∧ st.impact_facilities ≤ (n : Int)
  power : 0 ≤ st.has_power ∧ st.has_power ≤ (n : Int)
  water : 0 ≤ st.has_water ∧ st.has_water ≤ (n : Int)
  internet : 0 ≤ st.has_internet ∧ st.has_internet ≤ (n : Int)
  pharmacy : 0 ≤ st.has_pharmacy ∧ st.has_pharmacy ≤ (n : Int)
  revit : 0 ≤ st.revitalization_count ∧ st.revitalization_count ≤ (n : Int)
  tstaff : 0 ≤ st.total_staff
  fws : 0 ≤ st.facilities_with_staff
  sbt : ∀ p ∈ st.staff_by_type, 0 ≤ p.2
  tpat : 0 ≤ st.total_patients
  services : ∀ p ∈ st.services_offered, 1 ≤ p.2 ∧ p.2 ≤ (n : Int)

/-- Rounding an integer returns it unchanged. -/
theorem rhe_intCast (n : Int) : rhe (n : Rat) = n := by
  norm_num [rhe, Int.floor_intCast]

/-- Python round(x, 2) fixes integer values. -/
theorem pyRound2_intCast (n : Int) : pyRound2 (n : Rat) = (n : Rat) := by
  have h : ((n : Rat) * 100) = ((n * 100 : Int) : Rat) := by push_cast; ring
  rw [pyRound2, h, rhe_intCast]
  push_cast
  field_simp

/-- Python round(0, 2) is 0. -/
theorem pyRound2_zero : pyRound2 0 = 0 := by
  simpa using pyRound2_intCast 0

/-- Half-even rounding never goes below the floor. -/
theorem floor_le_rhe (x : Rat) : ⌊x⌋ ≤ rhe x := by
  unfold rhe
  split_ifs <;> omega

/-- Half-even rounding never exceeds the floor plus one. -/
theorem rhe_le_floor_add_one (x : Rat) : rhe x ≤ ⌊x⌋ + 1 := by
  unfold rhe
  split_ifs <;> omega

/-- Half-even rounding of a nonnegative value is nonnegative. -/
theorem rhe_nonneg {x : Rat} (h : 0 ≤ x) : 0 ≤ rhe x := by
  have h2 : (0 : Int) ≤ ⌊x⌋ := Int.le_floor.mpr (by exact_mod_cast h)
  have h3 := floor_le_rhe x
  omega

/-- Half-even rounding respects an integer upper bound. -/
theorem rhe_le_of_le {x : Rat} {B : Int} (h : x ≤ (B : Rat)) : rhe x ≤ B := by
  have hfB : ⌊x⌋ ≤ B := by
    have h2 := Int.floor_le_floor h
    simpa [Int.floor_intCast] using h2
  have hfx := Int.floor_le x
  unfold rhe
  split_ifs with h1 h2 h3
  · exact hfB
  · have hx : (⌊x⌋ : Rat) + 1/2 < x := by linarith
    have h4 : (⌊x⌋ : Rat) < (B : Rat) := by linarith
    have h5 : ⌊x⌋ < B := by exact_mod_cast h4
    omega
  · exact hfB
  · have hx : (⌊x⌋ : Rat) + 1/2 ≤ x := by linarith
    have h4 : (⌊x⌋ : Rat) < (B : Rat) := by linarith
    have h5 : ⌊x⌋ < B := by exact_mod_cast h4
    omega

/-- Half-even rounding is monotone. -/
theorem rhe_mono {x y : Rat} (h : x ≤ y) : rhe x ≤ rhe y := by
  rcases lt_or_eq_of_le (Int.floor_le_floor h) with hf | hf
  · have h1 := rhe_le_floor_add_one x
    have h2 := floor_le_rhe y
    omega
  · have hr : x - (⌊x⌋ : Rat) ≤ y - (⌊y⌋ : Rat) := by
      rw [← hf]
      linarith
    unfold rhe
    rw [← hf]
    split_ifs <;> first | omega | linarith

/-- Python round(x, 2) of a nonnegative value is nonnegative. -/
theorem pyRound2_nonneg {x : Rat} (h : 0 ≤ x) : 0 ≤ pyRound2 x := by
  have h1 : (0 : Int) ≤ rhe (x * 100) := rhe_nonneg (by positivity)
  unfold pyRound2
  have h2 : (0 : Rat) ≤ (rhe (x * 100) : Rat) := by exact_mod_cast h1
  positivity

/-- Python round(x, 2) of a value at most 100 stays at most 100. -/
theorem pyRound2_le_hundred {x : Rat} (h : x ≤ 100) : pyRound2 x ≤ 100 := by
  have h1 : x * 100 ≤ ((10000 : Int) : Rat) := by push_cast; linarith
  have h2 := rhe_le_of_le h1
  unfold pyRound2
  rw [div_le_iff (by norm_num)]
  have h3 : (rhe (x * 100) : Rat) ≤ ((10000 : Int) : Rat) := by exact_mod_cast h2
  push_cast at h3 ⊢
  linarith

/-- Python round(x, 2) is monotone. -/
theorem pyRound2_mono {x y : Rat} (h : x ≤ y) : pyRound2 x ≤ pyRound2 y := by
  unfold pyRound2
  have h1 : rhe (x * 100) ≤ rhe (y * 100) :=
    rhe_mono (mul_le_mul_of_nonneg_right h (by norm_num))
  have h2 : (rhe (x * 100) : Rat) ≤ (rhe (y * 100) : Rat) := by exact_mod_cast h1
  exact (div_le_div_right (by norm_num)).mpr h2

/-- The percentage shape is nonnegative whenever the count is. -/
theorem pctOf_nonneg {c t : Int} (h : 0 ≤ c) : 0 ≤ pctOf c t := by
  unfold pctOf
  split_ifs with ht
  · apply pyRound2_nonneg
    have h1 : (0 : Rat) ≤ (c : Rat) := by exact_mod_cast h
    have h2 : (0 : Rat) < (t : Rat) := by exact_mod_cast ht
    positivity
  · simp [pyRound2_zero]

/-- The percentage shape is at most 100 whenever the count is between 0
and the total. -/
theorem pctOf_le_hundred {c t : Int} (h0 : 0 ≤ c) (h1 : c ≤ t) : pctOf c t ≤ 100 := by
  unfold pctOf
  split_ifs with ht
  · apply pyRound2_le_hundred
    have h2 : (0 : Rat) < (t : Rat) := by exact_mod_cast ht
    have h3 : (c : Rat) ≤ (t : Rat) := by exact_mod_cast h1
    rw [div_mul_eq_mul_div, div_le_iff₀ h2]
    linarith
  · rw [pyRound2_zero]
    norm_num

/-- Membership analysis of an in-place-or-append counter update: an entry
of the result is an untouched entry, the freshly appended entry (only when
the key was absent), or the updated entry. -/
theorem bumpAdd_mem {A : Type} [Add A] {m : List (List Char × A)} {k : List Char} {a : A}
    {p : List Char × A} (hp : p ∈ bumpAdd m k a) :
    p ∈ m ∨ (p = (k, a) ∧ k ∉ m.map Prod.fst) ∨ ∃ v, (k, v) ∈ m ∧ p = (k, v + a) := by
  induction m with
  | nil =>
    simp only [bumpAdd, List.mem_singleton] at hp
    exact Or.inr (Or.inl ⟨hp, by simp⟩)
  | cons q rest ih =>
    rcases q with ⟨k2, v⟩
    simp only [bumpAdd] at hp
    by_cases h2 : (k2 == k) = true
    · rw [if_pos h2] at hp
      have hk2 : k2 = k := by simpa using h2
      rcases List.mem_cons.mp hp with rfl | hp2
      · subst hk2
        exact Or.inr (Or.inr ⟨v, by simp, rfl⟩)
      · exact Or.inl (List.mem_cons.mpr (Or.inr hp2))
    · rw [if_neg h2] at hp
      have hk2 : k2 ≠ k := by simpa using h2
      rcases List.mem_cons.mp hp with rfl | hp2
      · exact Or.inl (List.mem_cons.mpr (Or.inl rfl))
      · rcases ih hp2 with h | ⟨rfl, hnk⟩ | ⟨w, hw, rfl⟩
        · exact Or.inl (List.mem_cons.mpr (Or.inr h))
        · refine Or.inr (Or.inl ⟨rfl, ?_⟩)
          simp only [List.map_cons, List.mem_cons, not_or]
          exact ⟨fun h => hk2 h.symm, hnk⟩
        · exact Or.inr (Or.inr ⟨w, List.mem_cons.mpr (Or.inr hw), rfl⟩)

/-- Keys can only be added by a counter update, never removed. -/
theorem bumpAdd_keys {A : Type} [Add A] {m : List (List Char × A)} {k k2 : List Char} {a : A}
    (h : k2 ∉ (bumpAdd m k a).map Prod.fst) : k2 ∉ m.map Prod.fst ∧ k2 ≠ k := by
  induction m with
  | nil =>
    simp only [bumpAdd, List.map_cons, List.map_nil, List.mem_singleton] at h
    exact ⟨by simp, h⟩
  | cons q rest ih =>
    rcases q with ⟨k3, v⟩
    simp only [bumpAdd] at h
    by_cases h3 : (k3 == k) = true
    · rw [if_pos h3] at h
      have hk3 : k3 = k := by simpa using h3
      simp only [List.map_cons, List.mem_cons, not_or] at h
      refine ⟨?_, by rw [← hk3]; exact h.1⟩
      simp only [List.map_cons, List.mem_cons, not_or]
      exact ⟨h.1, h.2⟩
    · rw [if_neg h3] at h
      simp only [List.map_cons, List.mem_cons, not_or] at h
      rcases ih h.2 with ⟨hrest, hne⟩
      refine ⟨?_, hne⟩
      simp only [List.map_cons, List.mem_cons, not_or]
      exact ⟨h.1, hrest⟩

/-- The value looked up after a counter update. -/
theorem lookupZ_bumpAdd (m : List (List Char × Int)) (k k2 : List Char) (a : Int) :
    lookupZ (bumpAdd m k a) k2 = lookupZ m k2 + (if (k == k2) = true then a else 0) := by
  induction m with
  | nil =>
    simp only [bumpAdd, lookupZ]
    split_ifs <;> omega
  | cons q rest ih =>
    rcases q with ⟨k3, v⟩
    simp only [bumpAdd]
    by_cases h3 : (k3 == k) = true
    · have hk3 : k3 = k := by simpa using h3
      subst hk3
      simp only [if_pos h3, lookupZ]
      split_ifs <;> omega
    · simp only [if_neg h3, lookupZ]
      by_cases h2 : (k3 == k2) = true
      · have hkk : ¬(k == k2) = true := by
          simp only [beq_iff_eq] at h3 h2 ⊢
          intro hq
          exact h3 (by rw [h2, hq])
        simp only [if_pos h2, if_neg hkk]
        omega
      · simp only [if_neg h2]
        exact ih

/-- Membership is preserved by the stable descending insert. -/
theorem mem_insertDescBy {A : Type} (f : A → Rat) (a : A) (l : List A) (x : A) :
    x ∈ insertDescBy f a l ↔ x = a ∨ x ∈ l := by
  induction l with
  | nil => simp [insertDescBy]
  | cons b bs ih =>
    simp only [insertDescBy]
    split_ifs
    · simp
    · simp only [List.mem_cons, ih]
      tauto

/-- The stable descending insert preserves descending sortedness. -/
theorem pairwise_insertDescBy {A : Type} (f : A → Rat) (a : A) {l : List A}
    (hl : l.Pairwise (fun x y => f y ≤ f x)) :
    (insertDescBy f a l).Pairwise (fun x y => f y ≤ f x) := by
  induction l with
  | nil => simp [insertDescBy]
  | cons b bs ih =>
    rcases List.pairwise_cons.mp hl with ⟨hb, hbs⟩
    simp only [insertDescBy]
    split_ifs with hba
    · refine List.pairwise_cons.mpr ⟨?_, hl⟩
      intro x hx
      rcases List.mem_cons.mp hx with rfl | hx
      · exact hba
      · exact le_trans (hb x hx) hba
    · refine List.pairwise_cons.mpr ⟨?_, ih hbs⟩
      intro x hx
      rcases (mem_insertDescBy f a bs x).mp hx with rfl | hx
      · exact le_of_lt (not_le.mp hba)
      · exact hb x hx

/-- The stable descending sort is descendingly sorted. -/
theorem sortDescBy_pairwise {A : Type} (f : A → Rat) (l : List A) :
    (sortDescBy f l).Pairwise (fun x y => f y ≤ f x) := by
  induction l with
  | nil => simp [sortDescBy]
  | cons a as ih => exact pairwise_insertDescBy f a ih

/-- Filtering one key value through the stable insert: the inserted element
lands in front of every equal-keyed element. -/
theorem filter_insertDescBy {A : Type} (f : A → Rat) (a : A) (l : List A) (v : Rat) :
    (insertDescBy f a l).filter (fun x => decide (f x = v)) =
      (if f a = v then [a] else []) ++ l.filter (fun x => decide (f x = v)) := by
  induction l with
  | nil =>
    simp only [insertDescBy]
    by_cases ha : f a = v <;> simp [List.filter_cons, ha]
  | cons b bs ih =>
    simp only [insertDescBy]
    by_cases hba : f b ≤ f a
    · rw [if_pos hba]
      by_cases ha : f a = v <;> simp [List.filter_cons, ha]
    · rw [if_neg hba]
      rw [List.filter_cons, List.filter_cons, ih]
      by_cases hb : f b = v
      · have hav : ¬ f a = v := fun hav => hba (le_of_eq (hb.trans hav.symm))
        simp [hb, hav]
      · simp [hb]

/-- Stability of the descending sort: for every key value, the equal-keyed
subsequence is exactly the one of the input, in input order. -/
theorem sortDescBy_filter {A : Type} (f : A → Rat) (l : List A) (v : Rat) :
    (sortDescBy f l).filter (fun x => decide (f x = v)) =
      l.filter (fun x => decide (f x = v)) := by
  induction l with
  | nil => rfl
  | cons a as ih =>
    simp only [sortDescBy]
    rw [filter_insertDescBy, ih, List.filter_cons]
    by_cases ha : f a = v <;> simp [ha]

/-- Membership is preserved by the stable descending sort. -/
theorem mem_sortDescBy {A : Type} (f : A → Rat) (l : List A) (x : A) :
    x ∈ sortDescBy f l ↔ x ∈ l := by
  induction l with
  | nil => simp [sortDescBy]
  | cons a as ih => simp [sortDescBy, mem_insertDescBy, ih]

/-- The first component of the human-resources scan is the accumulated
per-record staff sum. -/
theorem hrScan_fst (items : PyDict) (acc : Int × List (List Char × Int)) :
    (hrScan items acc).1 = acc.1 + (items.map hrItemContrib).sum := by
  induction items generalizing acc with
  | nil => simp [hrScan]
  | cons kv rest ih =>
    rcases kv with ⟨k, v⟩
    simp only [hrScan, List.map_cons, List.sum_cons, hrItemContrib]
    by_cases hm : staffMarkerDash k = true
    · rw [if_pos hm]
      cases hp : dashIntParse v with
      | some c =>
        rw [ih]
        simp only [hp, Option.getD_some, if_pos hm]
        omega
      | none =>
        rw [ih]
        simp only [hp, Option.getD_none, if_pos hm]
        omega
    · rw [if_neg hm, ih, if_neg hm]
      omega

/-- The per-type staff map after the human-resources scan: each display
key gained exactly the record contributions under that key. -/
theorem hrScan_lookup (items : PyDict) (acc : Int × List (List Char × Int)) (k : List Char) :
    lookupZ (hrScan items acc).2 k = lookupZ acc.2 k +
      ((items.filter (fun kv => staffMarkerDash kv.1 && pyTitle kv.1 == k)).map
        (fun kv => (dashIntParse kv.2).getD 0)).sum := by
  induction items generalizing acc with
  | nil => simp [hrScan]
  | cons kv rest ih =>
    rcases kv with ⟨k2, v⟩
    simp only [hrScan]
    by_cases hm : staffMarkerDash k2 = true
    · rw [if_pos hm]
      by_cases ht : (pyTitle k2 == k) = true
      · have hc : (staffMarkerDash k2 && (pyTitle k2 == k)) = true := by simp [hm, ht]
        cases hp : dashIntParse v with
        | some c =>
          rw [ih, lookupZ_bumpAdd, if_pos ht]
          simp only [List.filter_cons, hc, if_true, List.map_cons, List.sum_cons, hp,
            Option.getD_some]
          omega
        | none =>
          rw [ih]
          simp only [List.filter_cons, hc, if_true, List.map_cons, List.sum_cons, hp,
            Option.getD_none]
          omega
      · have hc : ¬ (staffMarkerDash k2 && (pyTitle k2 == k)) = true := by simp [hm, ht]
        cases hp : dashIntParse v with
        | some c =>
          rw [ih, lookupZ_bumpAdd, if_neg ht]
          simp [List.filter_cons, hc]
        | none =>
          rw [ih]
          simp [List.filter_cons, hc]
    · rw [if_neg hm]
      have hc : ¬ (staffMarkerDash k2 && (pyTitle k2 == k)) = true := by simp [hm]
      rw [ih]
      simp [List.filter_cons, hc]

/-- Under nonnegative per-item contributions the per-type staff counters
stay nonnegative. -/
theorem hrScan_entries_nonneg {items : PyDict} {acc : Int × List (List Char × Int)}
    (hacc : ∀ p ∈ acc.2, 0 ≤ p.2)
    (hitems : ∀ kv ∈ items, staffMarkerDash kv.1 = true → 0 ≤ (dashIntParse kv.2).getD 0) :
    ∀ p ∈ (hrScan items acc).2, 0 ≤ p.2 := by
  induction items generalizing acc with
  | nil => exact hacc
  | cons kv rest ih =>
    rcases kv with ⟨k, v⟩
    simp only [hrScan]
    by_cases hm : staffMarkerDash k = true
    · rw [if_pos hm]
      cases hp : dashIntParse v with
      | some c =>
        apply ih
        · intro p hp2
          rcases bumpAdd_mem hp2 with h | ⟨rfl, hfresh⟩ | ⟨w, hw, rfl⟩
          · exact hacc p h
          · have h2 := hitems (k, v) (by simp) hm
            rw [hp] at h2
            simpa using h2
          · have h1 := hacc (pyTitle k, w) hw
            have h2 := hitems (k, v) (by simp) hm
            rw [hp] at h2
            simp only [Option.getD_some] at h2
            simp only at h1 ⊢
            omega
        · intro kv hkv hmkv
          exact hitems kv (by simp [hkv]) hmkv
      | none =>
        apply ih hacc
        intro kv hkv hmkv
        exact hitems kv (by simp [hkv]) hmkv
    · rw [if_neg hm]
      apply ih hacc
      intro kv hkv hmkv
      exact hitems kv (by simp [hkv]) hmkv

/-- The patient scan adds exactly the per-item patient contributions. -/
theorem patientScan_eq (items : PyDict) (acc : Int) :
    patientScan items acc = acc + (items.map patientContrib).sum := by
  induction items generalizing acc with
  | nil => simp [patientScan]
  | cons kv rest ih =>
    rcases kv with ⟨k, v⟩
    simp only [patientScan, List.map_cons, List.sum_cons, patientContrib]
    by_cases hm : patientMarker k = true
    · rw [if_pos hm]
      cases hp : dashIntParse v with
      | some c =>
        simp only [ih, hp, Option.getD_some, if_pos hm]
        omega
      | none =>
        simp only [ih, hp, Option.getD_none, if_pos hm]
        omega
    · rw [if_neg hm, ih, if_neg hm]
      omega

/-- One step of the offered-service count. -/
theorem yesCount_cons (k : List Char) (v : Val) (rest : PyDict) (k2 : List Char) :
    yesCount ((k, v) :: rest) k2 =
      yesCount rest k2 + (if (isOffered v && (pyTitle k == k2)) = true then 1 else 0) := by
  simp only [yesCount, List.filter_cons]
  split_ifs with h
  · simp only [List.length_cons]
    push_cast
    omega
  · omega

/-- The offered-service count is nonnegative. -/
theorem yesCount_nonneg (items : PyDict) (k : List Char) : 0 ≤ yesCount items k := by
  simp [yesCount]

/-- Offered-service counters stay within the record bound: each existing
counter that is at least 1 and, together with its remaining bumps, at most
n + 1 (with at most n + 1 remaining bumps for fresh keys) yields scan
output inside [1, n + 1]. -/
theorem servicesScan_bound {n : Int} (items : PyDict) (m : List (List Char × Int))
    (h1 : ∀ p ∈ m, 1 ≤ p.2)
    (h2 : ∀ p ∈ m, p.2 + yesCount items p.1 ≤ n + 1)
    (h3 : ∀ k, k ∉ m.map Prod.fst → yesCount items k ≤ n + 1) :
    ∀ p ∈ servicesScan items m, 1 ≤ p.2 ∧ p.2 ≤ n + 1 := by
  induction items generalizing m with
  | nil =>
    intro p hp
    simp only [servicesScan] at hp
    have ha := h1 p hp
    have hb := h2 p hp
    simp only [yesCount, List.filter_nil, List.length_nil, Nat.cast_zero, add_zero] at hb
    exact ⟨ha, by omega⟩
  | cons kv rest ih =>
    rcases kv with ⟨k, v⟩
    simp only [servicesScan]
    by_cases hv : isOffered v = true
    · rw [if_pos hv]
      apply ih
      · intro p hp
        rcases bumpAdd_mem hp with h | ⟨rfl, hnk⟩ | ⟨w, hw, rfl⟩
        · exact h1 p h
        · show (1 : Int) ≤ 1
          omega
        · have h4 : (1 : Int) ≤ w := h1 (pyTitle k, w) hw
          show (1 : Int) ≤ w + 1
          omega
      · intro p hp
        rcases bumpAdd_mem hp with h | ⟨rfl, hnk⟩ | ⟨w, hw, rfl⟩
        · have h4 := h2 p h
          rw [yesCount_cons] at h4
          split_ifs at h4 <;> omega
        · have hcount := h3 (pyTitle k) hnk
          rw [yesCount_cons] at hcount
          have hcond : (isOffered v && (pyTitle k == pyTitle k)) = true := by simp [hv]
          rw [if_pos hcond] at hcount
          show (1 : Int) + yesCount rest (pyTitle k) ≤ n + 1
          omega
        · have h4 := h2 (pyTitle k, w) hw
          rw [yesCount_cons] at h4
          have hcond : (isOffered v && (pyTitle k == pyTitle k)) = true := by simp [hv]
          rw [if_pos hcond] at h4
          have h5 : w + (yesCount rest (pyTitle k) + 1) ≤ n + 1 := h4
          show w + 1 + yesCount rest (pyTitle k) ≤ n + 1
          omega
      · intro k2 hk2
        rcases bumpAdd_keys hk2 with ⟨hk2m, hk2ne⟩
        have h4 := h3 k2 hk2m
        rw [yesCount_cons] at h4
        have hyc := yesCount_nonneg rest k2
        split_ifs at h4 <;> omega
    · rw [if_neg hv]
      apply ih m h1
      · intro p hp
        have h4 := h2 p hp
        rw [yesCount_cons] at h4
        have hcond : ¬ (isOffered v && (pyTitle k == p.1)) = true := by simp [hv]
        rw [if_neg hcond] at h4
        simpa using h4
      · intro k2 hk2
        have h4 := h3 k2 hk2
        rw [yesCount_cons] at h4
        have hcond : ¬ (isOffered v && (pyTitle k == k2)) = true := by simp [hv]
        rw [if_neg hcond] at h4
        simpa using h4

/-- A key that never appears among the offered display names is never
bumped. -/
theorem yesCount_eq_zero_of_not_mem {items : PyDict} {k : List Char}
    (h : k ∉ (items.filter (fun kv => isOffered kv.2)).map (fun kv => pyTitle kv.1)) :
    yesCount items k = 0 := by
  induction items with
  | nil => simp [yesCount]
  | cons kv rest ih =>
    rcases kv with ⟨k2, v⟩
    rw [yesCount_cons]
    by_cases hv : isOffered v = true
    · simp only [List.filter_cons, hv, if_true, List.map_cons, List.mem_cons, not_or] at h
      have ht : ¬ (pyTitle k2 == k) = true := by
        simp only [beq_iff_eq]
        exact fun hq => h.1 hq.symm
      rw [ih h.2]
      simp [hv, ht]
    · have hfe : ((k2, v) :: rest).filter (fun kv => isOffered kv.2) =
          rest.filter (fun kv => isOffered kv.2) := by
        simp [List.filter_cons, hv]
      rw [hfe] at h
      rw [ih h]
      simp [hv]

/-- With pairwise distinct offered display names, no key is bumped more
than once per record. -/
theorem yesCount_le_one_of_nodup {items : PyDict}
    (h : ((items.filter (fun kv => isOffered kv.2)).map (fun kv => pyTitle kv.1)).Nodup)
    (k : List Char) : yesCount items k ≤ 1 := by
  induction items with
  | nil => simp [yesCount]
  | cons kv rest ih =>
    rcases kv with ⟨k2, v⟩
    rw [yesCount_cons]
    by_cases hv : isOffered v = true
    · simp only [List.filter_cons, hv, if_true, List.map_cons, List.nodup_cons] at h
      by_cases ht : (pyTitle k2 == k) = true
      · have hk : k = pyTitle k2 := by
          have := (beq_iff_eq).mp ht
          exact this.symm
        have h0 : yesCount rest k = 0 :=
          yesCount_eq_zero_of_not_mem (by rw [hk]; exact h.1)
        rw [h0]
        simp [hv, ht]
      · have h2 := ih h.2
        simp only [hv, Bool.true_and, ht, if_neg]
        simp [ht]
        omega
    · have hfe : ((k2, v) :: rest).filter (fun kv => isOffered kv.2) =
          rest.filter (fun kv => isOffered kv.2) := by
        simp [List.filter_cons, hv]
      rw [hfe] at h
      have h2 := ih h
      simp [hv]
      omega

/-- The running funding total after the scan is the sum of the per-record
amount contributions. -/
theorem foldl_total_funding (subs : List Submission) (st : AggState) :
    (subs.foldl processSub st).total_funding_amount =
      st.total_funding_amount + (subs.map (fun s => amountContrib s.funding_data)).sum := by
  induction subs generalizing st with
  | nil => simp
  | cons s rest ih =>
    simp only [List.foldl_cons, List.map_cons, List.sum_cons]
    rw [ih]
    have h : (processSub st s).total_funding_amount =
        st.total_funding_amount + amountContrib s.funding_data := rfl
    rw [h]
    ring

/-- One categorical-distribution step preserves the per-entry bounds. -/
theorem distStep {m : List (List Char × Int)} {n : Nat} (o : Option (List Char))
    (hm : ∀ p ∈ m, 1 ≤ p.2 ∧ p.2 ≤ (n : Int)) :
    ∀ p ∈ (if strOptTruthy o = true then bumpAdd m (o.getD []) 1 else m),
      1 ≤ p.2 ∧ p.2 ≤ ((n + 1 : Nat) : Int) := by
  intro p hp
  split_ifs at hp with ho
  · rcases bumpAdd_mem hp with h | ⟨rfl, hfresh⟩ | ⟨w, hw, rfl⟩
    · have h2 := hm p h
      push_cast
      omega
    · refine ⟨le_refl 1, ?_⟩
      show (1 : Int) ≤ ((n + 1 : Nat) : Int)
      push_cast
      omega
    · have h2 := hm (o.getD [], w) hw
      have h3 : (1 : Int) ≤ w ∧ w ≤ (n : Int) := h2
      refine ⟨?_, ?_⟩ <;> show _ ≤ _ <;> push_cast <;> omega
  · have h2 := hm p hp
    push_cast
    omega

/-- One counting step preserves the counter bounds. -/
theorem counterStep {c : Int} {n : Nat} (h : 0 ≤ c ∧ c ≤ (n : Int)) (b : Bool) :
    0 ≤ c + (if b = true then 1 else 0) ∧
      c + (if b = true then 1 else 0) ≤ ((n + 1 : Nat) : Int) := by
  rcases h with ⟨h1, h2⟩
  split_ifs <;> push_cast <;> omega

/-- The positive-part gate is nonnegative. -/
theorem posGate_nonneg (x : Int) : 0 ≤ posGate x := by
  unfold posGate
  split_ifs <;> omega

/-- The empty aggregation state satisfies the invariant at zero records. -/
theorem aggInv_init : AggInv 0 initState := by
  constructor <;> simp [initState]

/-- One loop iteration preserves the invariant, stepping the record count. -/
theorem aggInv_step {n : Nat} {st : AggState} {s : Submission}
    (hinv : AggInv n st) (hgood : goodSub s) : AggInv (n + 1) (processSub st s) := by
  obtain ⟨hns, hsn, hpn⟩ := hgood
  have hns2 : (((dictItemsT s.services_data).filter (fun kv => isOffered kv.2)).map
      (fun kv => pyTitle kv.1)).Nodup := hns
  have hitems : ∀ kv ∈ dictItemsT s.human_resources_data,
      staffMarkerDash kv.1 = true → 0 ≤ (dashIntParse kv.2).getD 0 := by
    intro kv hkv hmkv
    have h2 := List.all_eq_true.mp hsn kv hkv
    simp only [hmkv, Bool.not_true, Bool.false_or, decide_eq_true_eq] at h2
    exact h2
  have hpitems : ∀ kv ∈ dictItemsT s.services_data,
      patientMarker kv.1 = true → 0 ≤ (dashIntParse kv.2).getD 0 := by
    intro kv hkv hmkv
    have h2 := List.all_eq_true.mp hpn kv hkv
    simp only [hmkv, Bool.not_true, Bool.false_or, decide_eq_true_eq] at h2
    exact h2
  refine ⟨?_, ?_, ?_, ?_, ?_, ?_, ?_, ?_, ?_, ?_, ?_, ?_, ?_, ?_, ?_, ?_, ?_⟩
  · exact distStep s.facility_condition hinv.cond
  · exact distStep s.ownership_type hinv.owner
  · exact distStep s.assessment_type hinv.assess
  · exact distStep s.has_health_workers hinv.hw
  · exact distStep s.geopolitical_zone hinv.zone
  · exact counterStep hinv.bhcpf _
  · exact counterStep hinv.impact _
  · exact counterStep hinv.power _
  · exact counterStep hinv.water _
  · exact counterStep hinv.internet _
  · exact counterStep hinv.pharmacy _
  · exact counterStep hinv.revit _
  · have h1 := hinv.tstaff
    have h2 := posGate_nonneg
      (hrScan (dictItemsT s.human_resources_data) (0, st.staff_by_type)).1
    show 0 ≤ st.total_staff +
      posGate (hrScan (dictItemsT s.human_resources_data) (0, st.staff_by_type)).1
    omega
  · have h1 := hinv.fws
    show 0 ≤ st.facilities_with_staff +
      (if 0 < (hrScan (dictItemsT s.human_resources_data) (0, st.staff_by_type)).1
       then 1 else 0)
    split_ifs <;> omega
  · exact hrScan_entries_nonneg hinv.sbt hitems
  · show 0 ≤ patientScan (dictItemsT s.services_data) st.total_patients
    rw [patientScan_eq]
    have h1 := hinv.tpat
    have h2 : 0 ≤ ((dictItemsT s.services_data).map patientContrib).sum := by
      apply List.sum_nonneg
      intro x hx
      rcases List.mem_map.mp hx with ⟨kv, hkv, rfl⟩
      unfold patientContrib
      split_ifs with hmk
      · exact hpitems kv hkv hmk
      · exact le_refl 0
    omega
  · intro p hp
    have hn0 : (0 : Int) ≤ (n : Int) := Int.natCast_nonneg n
    have hb := @servicesScan_bound (n : Int) (dictItemsT s.services_data) st.services_offered
      (fun p hp => (hinv.services p hp).1)
      (fun p hp => by
        have hle := (hinv.services p hp).2
        have hyc := yesCount_le_one_of_nodup hns2 p.1
        omega)
      (fun k hk => by
        have hyc := yesCount_le_one_of_nodup hns2 k
        omega)
    have h2 := hb p hp
    refine ⟨h2.1, ?_⟩
    have h3 := h2.2
    push_cast
    omega

/-- The whole scan preserves the invariant, counting the records. -/
theorem aggInv_fold (subs : List Submission) (st : AggState) (n : Nat)
    (hinv : AggInv n st) (hgood : ∀ s ∈ subs, goodSub s) :
    AggInv (n + subs.length) (subs.foldl processSub st) := by
  induction subs generalizing st n with
  | nil => simpa using hinv
  | cons s rest ih =>
    simp only [List.foldl_cons, List.length_cons]
    have h1 := aggInv_step hinv (hgood s (by simp))
    have h2 := ih (processSub st s) (n + 1) h1 (fun x hx => hgood x (by simp [hx]))
    have h3 : n + (rest.length + 1) = (n + 1) + rest.length := by omega
    rw [h3]
    exact h2

/-- C2 (amended): for every record set whose records have pairwise
distinct offered display names and nonnegative staff/patient counts,
every percentage field of the detailed-analytics report lies in [0, 100]
and every count field is nonnegative. -/
theorem spec2proof_C2_amended (subs : List Submission) (hgood : ∀ s ∈ subs, goodSub s) :
    reportBoundsOK (buildReport subs) := by
  have hinv := aggInv_fold subs initState 0 aggInv_init hgood
  rw [Nat.zero_add] at hinv
  have htotal : ((subs.length : Nat) : Int) = (subs.length : Int) := rfl
  refine ⟨?_, ?_, ?_, ?_, ?_, ?_, ?_, ?_, ?_, ?_, ?_, ?_, ?_, ?_, ?_, ?_⟩
  · intro e he
    rcases List.mem_map.mp he with ⟨p, hp, rfl⟩
    have hb := hinv.cond p hp
    refine ⟨show (0 : Int) ≤ p.2 by omega, ?_, ?_⟩
    · show (0 : Rat) ≤ pctOf p.2 (subs.length : Int)
      exact pctOf_nonneg (by omega)
    · show pctOf p.2 (subs.length : Int) ≤ 100
      exact pctOf_le_hundred (by omega) hb.2
  · intro e he
    rcases List.mem_map.mp he with ⟨p, hp, rfl⟩
    have hb := hinv.owner p hp
    refine ⟨show (0 : Int) ≤ p.2 by omega, ?_, ?_⟩
    · show (0 : Rat) ≤ pctOf p.2 (subs.length : Int)
      exact pctOf_nonneg (by omega)
    · show pctOf p.2 (subs.length : Int) ≤ 100
      exact pctOf_le_hundred (by omega) hb.2
  · intro e he
    have hb := hinv.assess e he
    omega
  · intro e he
    rcases List.mem_map.mp he with ⟨p, hp, rfl⟩
    have hb := hinv.hw p hp
    refine ⟨show (0 : Int) ≤ p.2 by omega, ?_, ?_⟩
    · show (0 : Rat) ≤ pctOf p.2 (subs.length : Int)
      exact pctOf_nonneg (by omega)
    · show pctOf p.2 (subs.length : Int) ≤ 100
      exact pctOf_le_hundred (by omega) hb.2
  · intro e he
    have hb := hinv.zone e he
    omega
  · have hb := hinv.bhcpf
    exact ⟨hb.1, pctOf_nonneg hb.1, pctOf_le_hundred hb.1 hb.2⟩
  · have hb := hinv.impact
    exact ⟨hb.1, pctOf_nonneg hb.1, pctOf_le_hundred hb.1 hb.2⟩
  · have hb := hinv.power
    exact ⟨hb.1, pctOf_nonneg hb.1, pctOf_le_hundred hb.1 hb.2⟩
  · have hb := hinv.water
    exact ⟨hb.1, pctOf_nonneg hb.1, pctOf_le_hundred hb.1 hb.2⟩
  · have hb := hinv.internet
    exact ⟨hb.1, pctOf_nonneg hb.1, pctOf_le_hundred hb.1 hb.2⟩
  · have hb := hinv.pharmacy
    exact ⟨hb.1, pctOf_nonneg hb.1, pctOf_le_hundred hb.1 hb.2⟩
  · have hb := hinv.revit
    exact ⟨hb.1, pctOf_nonneg hb.1, pctOf_le_hundred hb.1 hb.2⟩
  · refine ⟨hinv.tstaff, hinv.fws, ?_⟩
    intro e he
    have he2 : e ∈ sortDescBy (fun p => (p.2 : Rat))
        ((subs.foldl processSub initState).staff_by_type) :=
      List.take_subset 10 _ he
    have he3 := (mem_sortDescBy _ _ e).mp he2
    exact hinv.sbt e he3
  · refine ⟨hinv.tpat, ?_⟩
    intro e he
    rcases List.mem_map.mp he with ⟨p, hp, rfl⟩
    have hp2 : p ∈ sortDescBy (fun p => (p.2 : Rat))
        ((subs.foldl processSub initState).services_offered) :=
      List.take_subset 10 _ hp
    have hp3 := (mem_sortDescBy _ _ p).mp hp2
    have hb := hinv.services p hp3
    refine ⟨show (0 : Int) ≤ p.2 by omega, ?_, ?_⟩
    · show (0 : Rat) ≤ pctOf p.2 (subs.length : Int)
      exact pctOf_nonneg (by omega)
    · show pctOf p.2 (subs.length : Int) ≤ 100
      exact pctOf_le_hundred (by omega) hb.2
  · refine ⟨Int.natCast_nonneg _, ?_⟩
    intro e he
    rcases List.mem_map.mp he with ⟨p, hp, rfl⟩
    exact Int.natCast_nonneg _
  · refine ⟨Int.natCast_nonneg _, Int.natCast_nonneg _, pctOf_nonneg (Int.natCast_nonneg _), ?_⟩
    apply pctOf_le_hundred (Int.natCast_nonneg _)
    exact_mod_cast List.length_filter_le (fun s => isComplete s) subs

/-- C1: the staffing sum of predict_facility_needs has no try/except, so a
staff value whose first token is not int-parseable raises ValueError out of
the call, and an empty-string staff value raises IndexError; the
contribution is not dropped and the call does not return. -/
theorem spec2proof_C1_code_raises :
    predictFacilityNeeds recTwelve = .error .valueError ∧
    predictFacilityNeeds recEmptyStaff = .error .indexError := by
  constructor <;> decide

/-- C2 counterexample: a single record with a negative patient token and
two distinct service keys sharing one display name makes total_patients
negative and a service percentage exceed 100, refuting the unconditional
bounds. -/
theorem spec2proof_C2_counterexample :
    (buildReport [subBadServices]).services_utilization.total_patients = -5 ∧
    ¬ (0 : Int) ≤ (buildReport [subBadServices]).services_utilization.total_patients ∧
    (buildReport [subBadServices]).services_utilization.top_services_offered
      = [(L "A B", 2, 200)] ∧
    ¬ (200 : Rat) ≤ 100 := by
  refine ⟨by decide, by decide, ?_, by norm_num⟩
  have h : (buildReport [subBadServices]).services_utilization.top_services_offered
      = [(L "A B", 2, pctOf 2 1)] := rfl
  rw [h]
  have h2 : pctOf 2 1 = 200 := by
    unfold pctOf
    norm_num
    have h3 := pyRound2_intCast 200
    push_cast at h3
    exact h3
  rw [h2]

/-- C2 witness: the amended bounds instantiated on a concrete well-behaved
record. -/
theorem spec2proof_C2_amended_witness : reportBoundsOK (buildReport [subGoodServices]) :=
  spec2proof_C2_amended [subGoodServices] (by
    intro s hs
    rw [List.mem_singleton] at hs
    subst hs
    exact ⟨by decide, by decide, by decide⟩)

/-- C4: on the empty record set the aggregation returns (it is a total
function) with every count zero, every average and percentage zero, and
every list empty. -/
theorem spec2proof_C4 :
    (buildReport []).facility_analysis.condition_distribution = [] ∧
    (buildReport []).facility_analysis.ownership_distribution = [] ∧
    (buildReport []).facility_analysis.assessment_type_distribution = [] ∧
    (buildReport []).facility_analysis.health_workers_distribution = [] ∧
    (buildReport []).facility_analysis.geopolitical_zone_distribution = [] ∧
    (buildReport []).funding_analysis.bhcpf_facilities = 0 ∧
    (buildReport []).funding_analysis.bhcpf_percentage = 0 ∧
    (buildReport []).funding_analysis.impact_facilities = 0 ∧
    (buildReport []).funding_analysis.impact_percentage = 0 ∧
    (buildReport []).funding_analysis.total_funding_amount = 0 ∧
    (buildReport []).funding_analysis.average_funding_per_facility = 0 ∧
    (buildReport []).funding_analysis.funding_by_state = [] ∧
    (buildReport []).infrastructure_analysis.facilities_with_power = 0 ∧
    (buildReport []).infrastructure_analysis.power_percentage = 0 ∧
    (buildReport []).infrastructure_analysis.facilities_with_water = 0 ∧
    (buildReport []).infrastructure_analysis.water_percentage = 0 ∧
    (buildReport []).infrastructure_analysis.facilities_with_internet = 0 ∧
    (buildReport []).infrastructure_analysis.internet_percentage = 0 ∧
    (buildReport []).infrastructure_analysis.facilities_with_pharmacy = 0 ∧
    (buildReport []).infrastructure_analysis.pharmacy_percentage = 0 ∧
    (buildReport []).infrastructure_analysis.revitalized_facilities = 0 ∧
    (buildReport []).infrastructure_analysis.revitalization_percentage = 0 ∧
    (buildReport []).human_resources_analysis.total_staff = 0 ∧
    (buildReport []).human_resources_analysis.facilities_with_staff = 0 ∧
    (buildReport []).human_resources_analysis.average_staff_per_facility = 0 ∧
    (buildReport []).human_resources_analysis.staff_by_type = [] ∧
    (buildReport []).services_utilization.total_patients = 0 ∧
    (buildReport []).services_utilization.average_patients_per_facility = 0 ∧
    (buildReport []).services_utilization.top_services_offered = [] ∧
    (buildReport []).patient_satisfaction.average_score = 0 ∧
    (buildReport []).patient_satisfaction.total_responses = 0 ∧
    (buildReport []).patient_satisfaction.scores_by_category = [] ∧
    (buildReport []).summary.total_facilities = 0 ∧
    (buildReport []).summary.facilities_with_complete_data = 0 ∧
    (buildReport []).summary.data_completeness_percentage = 0 := by
  have hp0 : pctOf 0 0 = 0 := by
    unfold pctOf
    norm_num [pyRound2_zero]
  refine ⟨rfl, rfl, rfl, rfl, rfl, rfl, hp0, rfl, hp0, ?_, ?_, rfl,
    rfl, hp0, rfl, hp0, rfl, hp0, rfl, hp0, rfl, hp0,
    rfl, rfl, ?_, rfl, rfl, ?_, rfl, ?_, rfl, rfl, rfl, rfl, hp0⟩
  · exact pyRound2_zero
  · exact pyRound2_zero
  · exact pyRound2_zero
  · exact pyRound2_zero
  · exact pyRound2_zero

/-- C6: the string 12,500 has its comma stripped and contributes 12500.0;
a non-parseable amount contributes 0 without raising (the aggregation is a
total function) and the scan continues to later records (the good record
after the bad one still contributes); in general the running funding total
is the sum of the per-record amount contributions. -/
theorem spec2proof_C6 :
    amountContrib subAmountGood.funding_data = 12500 ∧
    amountContrib subAmountBad.funding_data = 0 ∧
    (buildReport [subAmountBad, subAmountGood]).funding_analysis.total_funding_amount
      = 12500 ∧
    (buildReport [subAmountBad, subAmountGood]).funding_analysis.funding_by_state
      = [(L "Kano", 12500)] ∧
    ∀ subs : List Submission,
      (subs.foldl processSub initState).total_funding_amount =
        (subs.map (fun s => amountContrib s.funding_data)).sum := by
  have h125 : pyRound2 12500 = 12500 := by
    have h3 := pyRound2_intCast 12500
    push_cast at h3
    exact h3
  refine ⟨?_, by decide, ?_, ?_, ?_⟩
  · have h : amountContrib subAmountGood.funding_data = ratOfParts (false, 12500, 0, 0) := rfl
    rw [h]
    norm_num [ratOfParts]
  · have h : (buildReport [subAmountBad, subAmountGood]).funding_analysis.total_funding_amount
        = pyRound2 (0 + 0 + ratOfParts (false, 12500, 0, 0)) := rfl
    rw [h]
    norm_num [ratOfParts]
    exact h125
  · have h : (buildReport [subAmountBad, subAmountGood]).funding_analysis.funding_by_state
        = [(L "Kano", pyRound2 (ratOfParts (false, 12500, 0, 0)))] := rfl
    rw [h]
    norm_num [ratOfParts]
    exact h125
  · intro subs
    have h := foldl_total_funding subs initState
    simpa [initState] using h

/-- C7 counterexample: a record whose single staff value parses to -1
contributes -1 to the per-key-type accumulator but nothing to total_staff
(the per-record positivity gate), so the parsed count does not reach both
accumulators as the claim states. -/
theorem spec2proof_C7_counterexample :
    recStaffSum subNegStaff = -1 ∧
    (buildReport [subNegStaff]).human_resources_analysis.staff_by_type
      = [(L "A Staff", -1)] ∧
    (buildReport [subNegStaff]).human_resources_analysis.total_staff = 0 := by
  refine ⟨by decide, by decide, by decide⟩

/-- C7 (amended): every staff/personnel/worker-marker key contributes its
parsed count (first token of a string value) to the per-key-type
accumulator; the per-record sum of those contributions reaches total_staff
only through its positive part.  The 12-nurses example contributes 12 to
both accumulators. -/
theorem spec2proof_C7_amended :
    dashIntParse (Val.str (L "12 nurses")) = some 12 ∧
    (buildReport [subNurseStaff]).human_resources_analysis.total_staff = 12 ∧
    (buildReport [subNurseStaff]).human_resources_analysis.staff_by_type
      = [(L "Nurse Staff Count", 12)] ∧
    (∀ (st : AggState) (s : Submission),
      (processSub st s).total_staff = st.total_staff + posGate (recStaffSum s)) ∧
    (∀ (st : AggState) (s : Submission) (k : List Char),
      lookupZ (processSub st s).staff_by_type k =
        lookupZ st.staff_by_type k + recKeyContrib s k) := by
  refine ⟨by decide, by decide, by decide, ?_, ?_⟩
  · intro st s
    show st.total_staff +
        posGate (hrScan (dictItemsT s.human_resources_data) (0, st.staff_by_type)).1 = _
    rw [hrScan_fst, zero_add]
    rfl
  · intro st s k
    show lookupZ (hrScan (dictItemsT s.human_resources_data) (0, st.staff_by_type)).2 k = _
    rw [hrScan_lookup]
    rfl

/-- C9: the aggregation and the predictor use different funding alias
keys: a record whose funding block is exactly bhcpf_received = Yes is
counted as BHCPF-funded by the report while predict_facility_needs, called
on the to_dict view of the same record, still reports the risk factor
Lack of funding. -/
theorem spec2proof_C9 :
    (buildReport [subAliasGap]).funding_analysis.bhcpf_facilities = 1 ∧
    predictFacilityNeeds (toDict subAliasGap) = .ok predAliasGap ∧
    L "Lack of funding" ∈ predAliasGap.risk_factors := by
  refine ⟨by decide, by decide, by decide⟩

/-- The priority level of the predictions depends only on the condition
trigger: high when it fired, medium otherwise. -/
theorem mkPredictions_priority (c l f pw ww : Bool) :
    ((mkPredictions c l f pw ww).priority_level = L "high" ∨
      (mkPredictions c l f pw ww).priority_level = L "medium") ∧
    ((mkPredictions c l f pw ww).priority_level = L "high" ↔ c = true) := by
  cases c
  · refine ⟨Or.inr rfl, ⟨fun h => ?_, fun h => nomatch h⟩⟩
    have h2 : L "medium" = L "high" := h
    exact absurd h2 (by decide)
  · exact ⟨Or.inl rfl, ⟨fun _ => rfl, fun _ => rfl⟩⟩

/-- C10: whenever predict_facility_needs returns, the priority level is
high exactly when the lower-cased facility condition is poor or critical,
and medium in every other case; low is never produced and the staffing,
funding and infrastructure rules do not affect it. -/
theorem spec2proof_C10 (sub : PyDict) (p : Predictions)
    (h : predictFacilityNeeds sub = .ok p) :
    (p.priority_level = L "high" ∨ p.priority_level = L "medium") ∧
    (p.priority_level = L "high" ↔ condIsCritical sub = true) := by
  unfold predictFacilityNeeds at h
  cases hc : asStr (dgetD sub (L "facility_condition") (Val.str [])) with
  | none =>
    rw [hc] at h
    exact absurd h (by simp)
  | some cs =>
    rw [hc] at h
    dsimp only at h
    have hcrit : condIsCritical sub = (lowerS cs == L "poor" || lowerS cs == L "critical") := by
      unfold condIsCritical
      rw [hc]
    cases hhr : dgetD sub (L "human_resources_data") (Val.dict []) with
    | dict items =>
      rw [hhr] at h
      dsimp only at h
      cases hs : staffSumItems items with
      | error e =>
        rw [hs] at h
        exact absurd h (by simp)
      | ok t =>
        rw [hs] at h
        dsimp only at h
        cases h
        refine ⟨(mkPredictions_priority _ _ _ _ _).1, ?_⟩
        rw [(mkPredictions_priority _ _ _ _ _).2, hcrit]
    | none =>
      rw [hhr] at h
      dsimp only at h
      cases h
      refine ⟨(mkPredictions_priority _ _ _ _ _).1, ?_⟩
      rw [(mkPredictions_priority _ _ _ _ _).2, hcrit]
    | bool b =>
      rw [hhr] at h
      dsimp only at h
      cases h
      refine ⟨(mkPredictions_priority _ _ _ _ _).1, ?_⟩
      rw [(mkPredictions_priority _ _ _ _ _).2, hcrit]
    | int n =>
      rw [hhr] at h
      dsimp only at h
      cases h
      refine ⟨(mkPredictions_priority _ _ _ _ _).1, ?_⟩
      rw [(mkPredictions_priority _ _ _ _ _).2, hcrit]
    | num q =>
      rw [hhr] at h
      dsimp only at h
      cases h
      refine ⟨(mkPredictions_priority _ _ _ _ _).1, ?_⟩
      rw [(mkPredictions_priority _ _ _ _ _).2, hcrit]
    | str s2 =>
      rw [hhr] at h
      dsimp only at h
      cases h
      refine ⟨(mkPredictions_priority _ _ _ _ _).1, ?_⟩
      rw [(mkPredictions_priority _ _ _ _ _).2, hcrit]
    | list l2 =>
      rw [hhr] at h
      dsimp only at h
      cases h
      refine ⟨(mkPredictions_priority _ _ _ _ _).1, ?_⟩
      rw [(mkPredictions_priority _ _ _ _ _).2, hcrit]

/-- C10 witness: the characterisation applied to a concrete critical
record. -/
theorem spec2proof_C10_witness :
    ((mkPredictions true false true true true).priority_level = L "high" ∨
      (mkPredictions true false true true true).priority_level = L "medium") ∧
    ((mkPredictions true false true true true).priority_level = L "high" ↔
      condIsCritical recCritical = true) :=
  spec2proof_C10 recCritical (mkPredictions true false true true true) (by decide)

/-- C8: each top-10 list of the report (funding by state, staff by type,
top services) has at most 10 entries, is the 10-prefix of the stable
descending sort of its accumulator, is descendingly sorted by its ranking
metric, and is stable: for every metric value the equal-metric entries
form a prefix of the accumulator entries with that metric, hence appear in
encounter order. -/
theorem spec2proof_C8 (subs : List Submission) :
    ((buildReport subs).funding_analysis.funding_by_state.length ≤ 10 ∧
      (buildReport subs).funding_analysis.funding_by_state =
        ((sortDescBy (fun p => p.2)
            ((subs.foldl processSub initState).funding_by_state)).take 10).map
          (fun p => (p.1, pyRound2 p.2)) ∧
      (buildReport subs).funding_analysis.funding_by_state.Pairwise
        (fun a b => b.2 ≤ a.2) ∧
      ∀ v : Rat,
        ((sortDescBy (fun p => p.2)
            ((subs.foldl processSub initState).funding_by_state)).take 10).filter
            (fun p => decide (p.2 = v)) <+:
          ((subs.foldl processSub initState).funding_by_state).filter
            (fun p => decide (p.2 = v))) ∧
    ((buildReport subs).human_resources_analysis.staff_by_type.length ≤ 10 ∧
      (buildReport subs).human_resources_analysis.staff_by_type =
        (sortDescBy (fun p => (p.2 : Rat))
          ((subs.foldl processSub initState).staff_by_type)).take 10 ∧
      (buildReport subs).human_resources_analysis.staff_by_type.Pairwise
        (fun a b => b.2 ≤ a.2) ∧
      ∀ v : Rat,
        ((sortDescBy (fun p => (p.2 : Rat))
            ((subs.foldl processSub initState).staff_by_type)).take 10).filter
            (fun p => decide ((p.2 : Rat) = v)) <+:
          ((subs.foldl processSub initState).staff_by_type).filter
            (fun p => decide ((p.2 : Rat) = v))) ∧
    ((buildReport subs).services_utilization.top_services_offered.length ≤ 10 ∧
      (buildReport subs).services_utilization.top_services_offered =
        ((sortDescBy (fun p => (p.2 : Rat))
            ((subs.foldl processSub initState).services_offered)).take 10).map
          (fun p => (p.1, p.2, pctOf p.2 (subs.length : Int))) ∧
      (buildReport subs).services_utilization.top_services_offered.Pairwise
        (fun a b => b.2.1 ≤ a.2.1) ∧
      ∀ v : Rat,
        ((sortDescBy (fun p => (p.2 : Rat))
            ((subs.foldl processSub initState).services_offered)).take 10).filter
            (fun p => decide ((p.2 : Rat) = v)) <+:
          ((subs.foldl processSub initState).services_offered).filter
            (fun p => decide ((p.2 : Rat) = v))) := by
  refine ⟨⟨?_, rfl, ?_, ?_⟩, ⟨?_, rfl, ?_, ?_⟩, ⟨?_, rfl, ?_, ?_⟩⟩
  · show ((((sortDescBy (fun p => p.2)
        ((subs.foldl processSub initState).funding_by_state)).take 10).map
          (fun p => (p.1, pyRound2 p.2))).length) ≤ 10
    rw [List.length_map]
    exact List.length_take_le 10 _
  · have hs := sortDescBy_pairwise (fun p => p.2)
      ((subs.foldl processSub initState).funding_by_state)
    have ht := hs.sublist (List.take_sublist 10 _)
    exact ht.map _ (fun a b hab => pyRound2_mono hab)
  · intro v
    have h1 := (List.take_prefix 10 (sortDescBy (fun p => p.2)
      ((subs.foldl processSub initState).funding_by_state))).filter
        (fun p => decide (p.2 = v))
    rw [sortDescBy_filter] at h1
    exact h1
  · show (((sortDescBy (fun p => (p.2 : Rat))
        ((subs.foldl processSub initState).staff_by_type)).take 10).length) ≤ 10
    exact List.length_take_le 10 _
  · have hs := sortDescBy_pairwise (fun p => (p.2 : Rat))
      ((subs.foldl processSub initState).staff_by_type)
    have ht := hs.sublist (List.take_sublist 10 _)
    exact ht.imp (fun hab => by exact_mod_cast hab)
  · intro v
    have h1 := (List.take_prefix 10 (sortDescBy (fun p => (p.2 : Rat))
      ((subs.foldl processSub initState).staff_by_type))).filter
        (fun p => decide ((p.2 : Rat) = v))
    rw [sortDescBy_filter] at h1
    exact h1
  · show ((((sortDescBy (fun p => (p.2 : Rat))
        ((subs.foldl processSub initState).services_offered)).take 10).map
          (fun p => (p.1, p.2, pctOf p.2 (subs.length : Int)))).length) ≤ 10
    rw [List.length_map]
    exact List.length_take_le 10 _
  · have hs := sortDescBy_pairwise (fun p => (p.2 : Rat))
      ((subs.foldl processSub initState).services_offered)
    have ht := hs.sublist (List.take_sublist 10 _)
    exact ht.map _ (fun a b hab => by exact_mod_cast hab)
  · intro v
    have h1 := (List.take_prefix 10 (sortDescBy (fun p => (p.2 : Rat))
      ((subs.foldl processSub initState).services_offered))).filter
        (fun p => decide ((p.2 : Rat) = v))
    rw [sortDescBy_filter] at h1
    exact h1

/-- A truthy value of numeric-or-absent shape is numeric. -/
theorem asNum_isSome_of_truthy {v : Val} (ht : truthy v = true) (hn : numOrAbsent v = true) :
    (asNum v).isSome = true := by
  cases v with
  | none => exact absurd ht (by decide)
  | bool b => rfl
  | int n => rfl
  | num q => rfl
  | str s => simp [numOrAbsent, asNum] at hn
  | dict d => simp [numOrAbsent, asNum] at hn
  | list l => simp [numOrAbsent, asNum] at hn

/-- The missing-data findings are never invalid-location findings. -/
theorem missingFindings_countP (sub : PyDict) :
    (missingFindings sub).countP (fun f => isInvalidLocationMedium f) = 0 := by
  rw [List.countP_eq_zero]
  intro f hf
  rcases List.mem_map.mp hf with ⟨k, hk, rfl⟩
  intro hcontra
  exact nomatch hcontra

/-- The inconsistency findings are never invalid-location findings. -/
theorem inconsistencyFindings_countP (sub : PyDict) :
    (inconsistencyFindings sub).countP (fun f => isInvalidLocationMedium f) = 0 := by
  rw [List.countP_eq_zero]
  intro f hf
  unfold inconsistencyFindings at hf
  cases hD : dgetD sub (L "human_resources_data") (Val.dict []) with
  | dict d =>
    rw [hD] at hf
    dsimp only at hf
    split_ifs at hf with hcond
    · rw [List.mem_singleton] at hf
      subst hf
      intro hcontra
      exact nomatch hcontra
    · exact absurd hf (List.not_mem_nil f)
  | none =>
    rw [hD] at hf
    exact absurd hf (List.not_mem_nil f)
  | bool b =>
    rw [hD] at hf
    exact absurd hf (List.not_mem_nil f)
  | int n =>
    rw [hD] at hf
    exact absurd hf (List.not_mem_nil f)
  | num q =>
    rw [hD] at hf
    exact absurd hf (List.not_mem_nil f)
  | str s =>
    rw [hD] at hf
    exact absurd hf (List.not_mem_nil f)
  | list l =>
    rw [hD] at hf
    exact absurd hf (List.not_mem_nil f)

/-- C3 (amended): on every record whose coordinate fields are numeric or
absent, detect_data_anomalies returns normally and emits exactly one
invalid_location/medium finding precisely when both coordinates are truthy
(present AND nonzero) and one of them falls outside the Nigeria box; a
present-but-zero coordinate suppresses the check. -/
theorem spec2proof_C3_amended (sub : PyDict)
    (hlat : numOrAbsent (dgetV sub (L "latitude")) = true)
    (hlon : numOrAbsent (dgetV sub (L "longitude")) = true) :
    ∃ l, detectAnomalies sub = .ok l ∧
      l.countP (fun f => isInvalidLocationMedium f) =
        (if outsideNigeria sub = true then 1 else 0) := by
  by_cases htr : (truthy (dgetV sub (L "latitude"))
      && truthy (dgetV sub (L "longitude"))) = true
  · have htr2 := htr
    rw [Bool.and_eq_true] at htr2
    obtain ⟨ht1, ht2⟩ := htr2
    have hla := asNum_isSome_of_truthy ht1 hlat
    have hlo := asNum_isSome_of_truthy ht2 hlon
    rcases Option.isSome_iff_exists.mp hla with ⟨la, hlaEq⟩
    rcases Option.isSome_iff_exists.mp hlo with ⟨lo, hloEq⟩
    have hout : outsideNigeria sub =
        (!(decide ((4 : Rat) ≤ la) && decide (la ≤ 14))
          || !(decide ((2 : Rat) ≤ lo) && decide (lo ≤ 15))) := by
      unfold outsideNigeria
      rw [ht1, ht2, hlaEq, hloEq]
      rfl
    have hloc1 : chainLE 4 (dgetV sub (L "latitude")) 14 =
        .ok (decide ((4 : Rat) ≤ la) && decide (la ≤ 14)) := by
      unfold chainLE
      rw [hlaEq]
    have hloc2 : chainLE 2 (dgetV sub (L "longitude")) 15 =
        .ok (decide ((2 : Rat) ≤ lo) && decide (lo ≤ 15)) := by
      unfold chainLE
      rw [hloEq]
    by_cases hc1 : (decide ((4 : Rat) ≤ la) && decide (la ≤ 14)) = true
    · by_cases hc2 : (decide ((2 : Rat) ≤ lo) && decide (lo ≤ 15)) = true
      · have hlocs : locationFindings sub = .ok [] := by
          unfold locationFindings
          dsimp only
          rw [if_pos htr, hloc1, hc1, hloc2, hc2]
          rfl
        refine ⟨missingFindings sub ++ [] ++ inconsistencyFindings sub, ?_, ?_⟩
        · unfold detectAnomalies
          rw [hlocs]
        · rw [List.countP_append, List.countP_append, missingFindings_countP,
            inconsistencyFindings_countP]
          have ho : outsideNigeria sub = false := by rw [hout, hc1, hc2]; rfl
          rw [ho]
          rfl
      · have hlocs : locationFindings sub = .ok [invalidLocationFinding] := by
          unfold locationFindings
          dsimp only
          rw [Bool.not_eq_true] at hc2
          rw [if_pos htr, hloc1, hc1, hloc2, hc2]
          rfl
        refine ⟨missingFindings sub ++ [invalidLocationFinding] ++ inconsistencyFindings sub,
          ?_, ?_⟩
        · unfold detectAnomalies
          rw [hlocs]
        · rw [List.countP_append, List.countP_append, missingFindings_countP,
            inconsistencyFindings_countP]
          have ho : outsideNigeria sub = true := by
            rw [hout]
            rw [Bool.not_eq_true] at hc2
            rw [hc1, hc2]
            rfl
          rw [ho]
          rfl
    · have hlocs : locationFindings sub = .ok [invalidLocationFinding] := by
        unfold locationFindings
        dsimp only
        rw [Bool.not_eq_true] at hc1
        rw [if_pos htr, hloc1, hc1]
        rfl
      refine ⟨missingFindings sub ++ [invalidLocationFinding] ++ inconsistencyFindings sub,
        ?_, ?_⟩
      · unfold detectAnomalies
        rw [hlocs]
      · rw [List.countP_append, List.countP_append, missingFindings_countP,
          inconsistencyFindings_countP]
        have ho : outsideNigeria sub = true := by
          rw [hout]
          rw [Bool.not_eq_true] at hc1
          rw [hc1]
          rfl
        rw [ho]
        rfl
  · have hlocs : locationFindings sub = .ok [] := by
      unfold locationFindings
      dsimp only
      rw [if_neg htr]
    refine ⟨missingFindings sub ++ [] ++ inconsistencyFindings sub, ?_, ?_⟩
    · unfold detectAnomalies
      rw [hlocs]
    · rw [List.countP_append, List.countP_append, missingFindings_countP,
        inconsistencyFindings_countP]
      have ho : outsideNigeria sub = false := by
        unfold outsideNigeria
        cases h1 : truthy (dgetV sub (L "latitude")) with
        | false => rfl
        | true =>
          cases h2 : truthy (dgetV sub (L "longitude")) with
          | false => rfl
          | true => exact absurd (by rw [h1, h2] <;> rfl : (truthy (dgetV sub (L "latitude"))
              && truthy (dgetV sub (L "longitude"))) = true) htr
      rw [ho]
      rfl

/-- C3 counterexample: latitude 0.0 with longitude 7.5 is present on the
record and outside [4, 14], yet no invalid_location finding is produced,
because 0.0 fails the Python truthiness guard. -/
theorem spec2proof_C3_counterexample :
    dgetV recLatZero (L "latitude") = Val.num 0 ∧
    dgetV recLatZero (L "longitude") = Val.num q75 ∧
    ¬ ((4 : Rat) ≤ 0 ∧ (0 : Rat) ≤ 14) ∧
    invalidLocCount recLatZero = 0 := by
  refine ⟨rfl, rfl, by norm_num, by decide⟩

/-- C3 witness: the amended characterisation instantiated at the
out-of-bounds specification coordinates (40.0, 7.5), which yield exactly
one invalid_location/medium finding. -/
theorem spec2proof_C3_witness :
    ∃ l, detectAnomalies recOutside = .ok l ∧
      l.countP (fun f => isInvalidLocationMedium f) = 1 := by
  obtain ⟨l, h1, h2⟩ := spec2proof_C3_amended recOutside (by decide) (by decide)
  refine ⟨l, h1, ?_⟩
  rw [h2]
  decide

/-- C5: empty issues and comments yield the neutral/low/no-topics default;
and whenever the lower-cased combined text contains more negative than
positive keywords, the sentiment is negative with priority high when more
than 3 negative keywords occur and medium otherwise. -/
theorem spec2proof_C5 :
    (analyzeIssuesAndComments (L "") (L "") =
      { sentiment := L "neutral", topics := [], priority := L "low",
        insights := [], summary := L "No issues or comments provided" }) ∧
    ∀ issues comments : List Char,
      ¬ (issues.isEmpty = true ∧ comments.isEmpty = true) →
      keywordCount positiveKeywords (lowerS (combinedText issues comments)) <
        keywordCount negativeKeywords (lowerS (combinedText issues comments)) →
      (analyzeIssuesAndComments issues comments).sentiment = L "negative" ∧
      (analyzeIssuesAndComments issues comments).priority =
        (if 3 < keywordCount negativeKeywords (lowerS (combinedText issues comments))
         then L "high" else L "medium") := by
  constructor
  · decide
  · intro issues comments hne hneg
    have hif : ¬ (issues.isEmpty && comments.isEmpty) = true := by
      intro hb
      rw [Bool.and_eq_true] at hb
      exact hne hb
    have ha : analyzeIssuesAndComments issues comments =
        basicTextAnalysis (combinedText issues comments) := by
      unfold analyzeIssuesAndComments
      rw [if_neg hif]
      rfl
    rw [ha]
    unfold basicTextAnalysis
    dsimp only
    constructor
    · rw [if_pos hneg]
    · rw [if_pos hneg]

/-- C5 witness: the four-negative-keyword specification example yields
negative sentiment with high priority. -/
theorem spec2proof_C5_witness :
    (analyzeIssuesAndComments (L "") (L "broken urgent critical poor")).sentiment
      = L "negative" ∧
    (analyzeIssuesAndComments (L "") (L "broken urgent critical poor")).priority
      = L "high" := by
  have h := spec2proof_C5.2 (L "") (L "broken urgent critical poor") (by decide) (by decide)
  refine ⟨h.1, ?_⟩
  rw [h.2]
  decide
